import Mathlib

/-!
Verification of the Workday XLSX import pipeline
(`import_workday.py` and the `WorkdayFeedback` model of `models.py`).

Strings are modelled as `List Char` (`Str`).  Spreadsheet cells are
modelled by `Cell` (Python `None`, strings, and `datetime` values; the
claims under study touch no other cell type).  The SQLite store backing
the pipeline is modelled by a committed record list plus the pending
(flushed but uncommitted) records of the single SQLAlchemy session used
by one run; `session.flush` checks the NOT NULL and UNIQUE constraints
against committed plus pending rows, `session.rollback` discards all
pending rows, and the single `session.commit` at the end of the run
appends the pending rows to the committed store.  SQL comparison
semantics are kept: a NULL column value compares unequal to everything,
including NULL, in the UNIQUE constraint.
-/

/-- Python strings are modelled as lists of characters. -/
abbrev Str := List Char

/-- ASCII lowercasing of one character (shift an upper case letter by
32), as `str.lower` acts on the ASCII range; all text handled by the
pipeline is ASCII. -/
def lowerChar (c : Char) : Char :=
  if 65 ≤ c.toNat ∧ c.toNat ≤ 90 then Char.ofNat (c.toNat + 32) else c

/-- Python `str.lower`. -/
def lowerStr (s : Str) : Str := s.map lowerChar

/-- The whitespace characters stripped by `str.strip` and matched by
the regex class `\s` (ASCII range). -/
def isWS (c : Char) : Bool :=
  c = ' ' || c = '\t' || c = '\n' || c = '\r' || c = '\x0b' || c = '\x0c'

/-- Python `str.strip()`: drop whitespace from both ends. -/
def stripL (l : Str) : Str :=
  ((l.dropWhile isWS).reverse.dropWhile isWS).reverse

/-- Python `s.split(",")`. -/
def splitComma : Str → List Str
  | [] => [[]]
  | c :: t =>
    if c = ',' then [] :: splitComma t
    else
      match splitComma t with
      | h :: r => (c :: h) :: r
      | [] => [[c]]

/-- Python `",".join(xs)`. -/
def joinComma : List Str → Str
  | [] => []
  | [x] => x
  | x :: xs => x ++ ',' :: joinComma xs

/-- Does `s` start with `p` (Python `str.startswith`)? -/
def startsWithL : Str → Str → Bool
  | [], _ => true
  | _ :: _, [] => false
  | c :: p, d :: s => (d == c) && startsWithL p s

/-- Python substring containment (`needle in hay`). -/
def containsSub (n : Str) : Str → Bool
  | [] => n == []
  | s@(_ :: t) => startsWithL n s || containsSub n t

/-- First index whose element satisfies `p`, scanning left to right
(the Python `for idx, h in enumerate(...)` search loops). -/
def findIdxO (p : α → Bool) : List α → Option Nat
  | [] => none
  | a :: l => if p a then some 0 else (findIdxO p l).map (· + 1)

/-- Decimal rendering of a natural number (Python `str` on an int,
used for row numbers in error messages). -/
def natStr (n : Nat) : Str := (Nat.repr n).data

/-! ### A mini regex engine

`TENET_MARKER_PATTERN` uses only case-insensitive literals, `\s*`, and
the capturing class `([^\n]*)`.  The matcher below implements the
backtracking semantics of the Python `re` module for exactly these
constructs: stars are greedy (longest consumption tried first) and
the search entry point scans start positions left to right. -/

/-- One item of the regex pattern: a case-insensitive literal, the
greedy `\s*`, or the greedy capturing group `([^\n]*)`. -/
inductive RItem where
  | lit (l : Str)
  | wsStar
  | grpNL
deriving DecidableEq

/-- Case-insensitive prefix test (`re.IGNORECASE` literal matching). -/
def isPrefixCI : Str → Str → Bool
  | [], _ => true
  | _ :: _, [] => false
  | c :: l, d :: s => (lowerChar d == lowerChar c) && isPrefixCI l s

/-- Try consuming `k, k-1, ..., 0` characters and running the
continuation `f` on the rest: the greedy backtracking of a star. -/
def tryK (f : Str → Option (List Str × Str)) (s : Str) : Nat → Option (List Str × Str)
  | 0 => f s
  | k + 1 =>
    match f (s.drop (k + 1)) with
    | some r => some r
    | none => tryK f s k

/-- Greedy backtracking of a capturing star: as `tryK`, but the
consumed prefix is recorded as the next capture group. -/
def tryGrpK (f : Str → Option (List Str × Str)) (s : Str) : Nat → Option (List Str × Str)
  | 0 => (f s).map (fun r => (([] : Str) :: r.1, r.2))
  | k + 1 =>
    match (f (s.drop (k + 1))).map (fun r => (s.take (k + 1) :: r.1, r.2)) with
    | some r => some r
    | none => tryGrpK f s k

/-- Count the characters of the longest prefix satisfying `p` (the
maximal consumption a greedy star starts from). -/
def countWhile (p : Char → Bool) : Str → Nat
  | [] => 0
  | c :: s => if p c then countWhile p s + 1 else 0

/-- Match a pattern (a sequence of `RItem`s) at the beginning of `s`,
returning the capture groups in order and the unmatched rest. -/
def matchSeq : List RItem → Str → Option (List Str × Str)
  | [], s => some ([], s)
  | .lit l :: ps, s =>
    if isPrefixCI l s then matchSeq ps (s.drop l.length) else none
  | .wsStar :: ps, s => tryK (fun t => matchSeq ps t) s (countWhile isWS s)
  | .grpNL :: ps, s =>
    tryGrpK (fun t => matchSeq ps t) s (countWhile (fun c => !(c == '\n')) s)

/-- Scan start positions left to right and return the captures of the
first match, as `re` module searching does. -/
def reSearch (pat : List RItem) : Str → Option (List Str)
  | [] => (matchSeq pat []).map (·.1)
  | s@(_ :: t) =>
    match matchSeq pat s with
    | some r => some r.1
    | none => reSearch pat t

/-- `WorkdayFeedback.TENET_MARKER_PATTERN` from `models.py`. -/
def tenetPat : List RItem :=
  [.lit "[TENETS]".data, .wsStar,
   .lit "Strengths:".data, .wsStar, .grpNL, .wsStar,
   .lit "Improvements:".data, .wsStar, .grpNL, .wsStar,
   .lit "[/TENETS]".data]

example : reSearch tenetPat "[TENETS]\nStrengths: a, b\nImprovements: c\n[/TENETS]".data
    = some ["a, b".data, "c".data] := by decide

example : reSearch tenetPat "no marker here".data = none := by decide

example : splitComma "a,,b".data = ["a".data, [], "b".data] := by decide

example : stripL "  ab c\t".data = "ab c".data := by decide

/-! ### Cells, records and the structured-feedback extractor -/

/-- A spreadsheet cell value as seen through `openpyxl` with
`values_only=True`: Python `None`, a string, or a `datetime` (modelled
as an opaque natural number).  The claims under study involve no other
cell type. -/
inductive Cell where
  | empty
  | str (s : Str)
  | dt (d : Nat)
deriving DecidableEq

/-- Python truthiness of a cell value (`None` and the empty string are
falsy, datetimes are truthy). -/
def truthyCell : Cell → Bool
  | .empty => false
  | .str s => !(s == [])
  | .dt _ => true

/-- Python `str(value)` as used in messages and header normalisation
(datetimes are rendered through their opaque code). -/
def cellStr : Cell → Str
  | .empty => "None".data
  | .str s => s
  | .dt d => natStr d

/-- The `WorkdayFeedback` row of `models.py` as the pipeline populates
it.  `strengths` and `improvements` hold the JSON arrays of tenet ids
(`none` models the SQL NULL of a generic entry).  The prose columns
`strengths_text` and `improvements_text` are not modelled: no claim
mentions them and they influence no other field. -/
structure WDRec where
  about : Cell
  from_name : Cell
  question : Cell
  feedback : Cell
  asked_by : Cell
  request_type : Cell
  date : Option Nat
  is_structured : Bool := false
  strengths : Option (List Str) := none
  improvements : Option (List Str) := none
deriving DecidableEq

/-- Keep a comma-separated token if it is nonempty once stripped, as
the comprehension `[s.strip() for s in raw.split(",") if s.strip()]`
does. -/
def keepTok (t : Str) : Option Str :=
  let u := stripL t
  if u = [] then none else some u

/-- `WorkdayFeedback.parse_structured_feedback` from `models.py`:
search the feedback text for the `[TENETS]` marker block; when found,
mark the record structured and store the two comma-separated id lists
(stripped, empties discarded, order kept).  Returns the updated record
and whether a block was found.  A truthy non-string feedback value
would make the source raise `TypeError` inside `re.search`; the model
returns the record unchanged there (no claim reaches that case). -/
def parse_structured_feedback (r : WDRec) : WDRec × Bool :=
  match r.feedback with
  | Cell.empty => (r, false)
  | Cell.dt _ => (r, false)
  | Cell.str s =>
    if s = [] then (r, false)
    else
      match reSearch tenetPat s with
      | none => ({ r with is_structured := false }, false)
      | some caps =>
        let strengths_raw := stripL (caps.getD 0 [])
        let improvements_raw := stripL (caps.getD 1 [])
        let strength_ids := (splitComma strengths_raw).filterMap keepTok
        let improvement_ids := (splitComma improvements_raw).filterMap keepTok
        ({ r with is_structured := true,
                  strengths := some strength_ids,
                  improvements := some improvement_ids }, true)

/-! ### Configuration and column detection -/

/-- The two canonical request-type labels of the configuration. -/
structure RequestTypeLabels where
  selfLabel : Str
  othersLabel : Str
deriving DecidableEq

/-- The Workday import configuration: header synonym lists for the
required and optional fields, the 1-based header row, and the two
request-type labels. -/
structure ImportConfig where
  about_syns : List Str
  from_name_syns : List Str
  question_syns : List Str
  feedback_syns : List Str
  asked_by_syns : List Str
  request_type_syns : List Str
  date_syns : List Str
  about_id_syns : List Str
  from_id_syns : List Str
  feedback_also_given_to_syns : List Str
  header_row : Nat
  request_types : RequestTypeLabels
deriving DecidableEq

/-- `DEFAULT_CONFIG` from `import_workday.py`. -/
def DEFAULT_CONFIG : ImportConfig where
  about_syns := ["about".data, "recipient".data, "employee".data, "for".data]
  from_name_syns := ["from".data, "provider".data, "given by".data, "reviewer".data]
  question_syns := ["question".data]
  feedback_syns := ["feedback".data, "response".data, "answer".data, "comments".data]
  asked_by_syns := ["asked by".data, "requested by".data, "requester".data]
  request_type_syns := ["type".data, "request type".data]
  date_syns := ["date".data, "response date".data, "submitted".data]
  about_id_syns := ["about id".data, "recipient id".data, "employee id".data]
  from_id_syns := ["from id".data, "provider id".data, "reviewer id".data]
  feedback_also_given_to_syns := ["feedback also given to".data, "also given to".data]
  header_row := 2
  request_types := ⟨"Requested by Self".data, "Requested by Others".data⟩

/-- The detected column mapping: canonical field to 0-based column. -/
structure ColMapping where
  about : Option Nat := none
  from_name : Option Nat := none
  question : Option Nat := none
  feedback : Option Nat := none
  asked_by : Option Nat := none
  request_type : Option Nat := none
  date : Option Nat := none
  about_id : Option Nat := none
  from_id : Option Nat := none
  feedback_also_given_to : Option Nat := none
deriving DecidableEq

/-- Normalised header text of one cell:
`str(cell.value).lower().strip() if cell.value else ""`. -/
def headerText : Cell → Str
  | .empty => []
  | .str s => if s = [] then [] else stripL (lowerStr s)
  | .dt d => stripL (lowerStr (natStr d))

/-- The 1-based row access `ws[n]` on a worksheet. -/
def rowAt (ws : List (List Cell)) (n : Nat) : List Cell := ws.getD (n - 1) []

/-- Detection of one required column: first pass looks for an exact
match of a synonym, second pass for a header starting with a synonym,
skipping headers containing "photo". -/
def detectRequired (syns : List Str) (headers : List Str) : Option Nat :=
  match findIdxO (fun h => syns.any (fun nm => lowerStr nm == h)) headers with
  | some i => some i
  | none =>
    findIdxO (fun h =>
      !(containsSub "photo".data h)
        && syns.any (fun nm => startsWithL (lowerStr nm) h)) headers

/-- Detection of one optional column: any header containing a synonym
as a substring. -/
def detectOptional (syns : List Str) (headers : List Str) : Option Nat :=
  findIdxO (fun h => syns.any (fun nm => containsSub (lowerStr nm) h)) headers

/-- Warning emitted when the about column needs the fallback. -/
def aboutFallbackWarn : Str :=
  "Could not find \x27About\x27/\x27Recipient\x27 column - using first non-photo column".data

/-- Warning emitted when the from column is missing. -/
def fromMissingWarn : Str :=
  "Could not find \x27From\x27/\x27Provider\x27 column - required for import".data

/-- Warning emitted when the feedback column is missing. -/
def feedbackMissingWarn : Str :=
  "Could not find \x27Feedback\x27/\x27Response\x27 column".data

/-- `detect_columns` from `import_workday.py`: read the header row,
match required and optional columns, then apply the post-pass
special-casing (about falls back to the first non-empty non-photo
header; missing from or feedback columns only warn). -/
def detect_columns (ws : List (List Cell)) (config : ImportConfig) :
    ColMapping × List Str :=
  let headers := (rowAt ws config.header_row).map headerText
  let m0 : ColMapping :=
    { about := detectRequired config.about_syns headers
      from_name := detectRequired config.from_name_syns headers
      question := detectRequired config.question_syns headers
      feedback := detectRequired config.feedback_syns headers
      asked_by := detectRequired config.asked_by_syns headers
      request_type := detectRequired config.request_type_syns headers
      date := detectRequired config.date_syns headers
      about_id := detectOptional config.about_id_syns headers
      from_id := detectOptional config.from_id_syns headers
      feedback_also_given_to :=
        detectOptional config.feedback_also_given_to_syns headers }
  let step1 : ColMapping × List Str :=
    match m0.about with
    | some _ => (m0, [])
    | none =>
      match findIdxO (fun h => !(h == []) && !(containsSub "photo".data h)) headers with
      | some i => ({ m0 with about := some i }, [aboutFallbackWarn])
      | none => (m0, [aboutFallbackWarn])
  let m1 := step1.1
  let w2 := if m1.from_name = none then [fromMissingWarn] else []
  let w3 := if m1.feedback = none then [feedbackMissingWarn] else []
  (m1, step1.2 ++ w2 ++ w3)

/-- `get_cell_value` from `import_workday.py`. -/
def get_cell_value (row : List Cell) (col_idx : Option Nat) : Cell :=
  match col_idx with
  | none => Cell.empty
  | some i => row.getD i Cell.empty

/-! ### Row validation -/

/-- Error text for a row whose About matches Asked By but whose Type
is not the self label. -/
def inconsistSelfMsg (n : Nat) (about request_type : Cell)
    (config : ImportConfig) : Str :=
  "Row ".data ++ natStr n ++ ": Data inconsistency - About \x27".data
    ++ cellStr about ++ "\x27 matches Asked By but Type is \x27".data
    ++ cellStr request_type ++ "\x27 (expected \x27".data
    ++ config.request_types.selfLabel ++ "\x27)".data

/-- Error text for a row whose About differs from Asked By but whose
Type is not the others label. -/
def inconsistOthersMsg (n : Nat) (about asked_by request_type : Cell)
    (config : ImportConfig) : Str :=
  "Row ".data ++ natStr n ++ ": Data inconsistency - About \x27".data
    ++ cellStr about ++ "\x27 differs from Asked By \x27".data
    ++ cellStr asked_by ++ "\x27 but Type is \x27".data
    ++ cellStr request_type ++ "\x27 (expected \x27".data
    ++ config.request_types.othersLabel ++ "\x27)".data

/-- `validate_row` from `import_workday.py`: silently skip rows with a
falsy from value; when about, asked by and request type are all
present, reject inconsistent combinations with a descriptive error;
accept everything else. -/
def validate_row (row : List Cell) (row_num : Nat) (col_mapping : ColMapping)
    (config : ImportConfig) : Bool × Option Str :=
  let about := get_cell_value row col_mapping.about
  let from_name := get_cell_value row col_mapping.from_name
  let asked_by := get_cell_value row col_mapping.asked_by
  let request_type := get_cell_value row col_mapping.request_type
  if !(truthyCell from_name) then (false, none)
  else if truthyCell about && truthyCell asked_by && truthyCell request_type then
    if about == asked_by
        && !(request_type == Cell.str config.request_types.selfLabel) then
      (false, some (inconsistSelfMsg row_num about request_type config))
    else if !(about == asked_by)
        && !(request_type == Cell.str config.request_types.othersLabel) then
      (false, some (inconsistOthersMsg row_num about asked_by request_type config))
    else (true, none)
  else (true, none)

example :
    (detect_columns [[], [Cell.str "About Photo".data, Cell.str "About".data]]
      DEFAULT_CONFIG).1.about = some 1 := by decide

example :
    (detect_columns [[], [Cell.str "About Photo".data, Cell.str "Recipient".data]]
      DEFAULT_CONFIG).1.about = some 1 := by decide

example :
    validate_row [Cell.str "A".data, Cell.str "B".data, Cell.str "A".data,
        Cell.str "Requested by Self".data] 5
      { about := some 0, from_name := some 1, asked_by := some 2,
        request_type := some 3 } DEFAULT_CONFIG = (true, none) := by decide

/-! ### The import orchestrator

`import_workday_xlsx` is modelled from the selected worksheet onward
(the claims under study quantify over sheets; opening the workbook and
choosing the sheet precede everything they mention).  The ISO date
parser `datetime.fromisoformat` is an external library function and is
passed in as an explicit parameter `isoParse`; a parse failure is
`none`, as the `except ValueError` branch of the source yields `None`. -/

/-- Counters and message lists of an `ImportResult`. -/
structure ImportResM where
  imported : Nat := 0
  skipped_duplicates : Nat := 0
  skipped_empty : Nat := 0
  structured_count : Nat := 0
  generic_count : Nat := 0
  warnings : List Str := []
  errors : List Str := []
deriving DecidableEq

/-- Derived success flag: true iff no errors were accumulated. -/
def ImportResM.success (r : ImportResM) : Bool := r.errors == []

/-- Date conversion of the orchestrator: keep a native datetime, parse
an ISO string (failure gives `none`), anything else gives `none`. -/
def dateOf (isoParse : Str → Option Nat) : Cell → Option Nat
  | .dt d => some d
  | .str s => isoParse s
  | .empty => none

/-- Build the `WorkdayFeedback` record for one accepted row, using the
detected column mapping, then run the structured-feedback extractor on
it, exactly as the orchestrator loop does. -/
def recOfRow (col_mapping : ColMapping) (isoParse : Str → Option Nat)
    (row : List Cell) : WDRec :=
  (parse_structured_feedback
    { about := get_cell_value row col_mapping.about
      from_name := get_cell_value row col_mapping.from_name
      question := get_cell_value row col_mapping.question
      feedback := get_cell_value row col_mapping.feedback
      asked_by := get_cell_value row col_mapping.asked_by
      request_type := get_cell_value row col_mapping.request_type
      date := dateOf isoParse (get_cell_value row col_mapping.date) }).1

/-- SQL equality of two stored cell values inside the UNIQUE
constraint: NULL compares unequal to everything, including NULL. -/
def sqlEqCell : Cell → Cell → Bool
  | .empty, _ => false
  | _, .empty => false
  | .str a, .str b => a == b
  | .dt a, .dt b => a == b
  | _, _ => false

/-- SQL equality of two stored dates (NULL never equal). -/
def sqlEqDate : Option Nat → Option Nat → Bool
  | some a, some b => a == b
  | _, _ => false

/-- Natural-key collision under the UNIQUE constraint
`(about, from_name, question, date)` of `WorkdayFeedback`. -/
def keyConflict (r q : WDRec) : Bool :=
  sqlEqCell r.about q.about && sqlEqCell r.from_name q.from_name
    && sqlEqCell r.question q.question && sqlEqDate r.date q.date

/-- Does `session.flush()` raise `IntegrityError` for record `r` when
the transaction already holds `committed ++ pending`?  Either NOT NULL
column (`about`, `from_name`) or the UNIQUE constraint can fire. -/
def flushViolation (committed pending : List WDRec) (r : WDRec) : Bool :=
  r.about == Cell.empty || r.from_name == Cell.empty
    || (committed ++ pending).any (fun q => keyConflict r q)

/-- State of the orchestrator loop: accumulated result, the committed
store, the pending (flushed, uncommitted) rows of the session, the
flag tracking data in the feedback-also-given-to column, and the next
1-based row number. -/
structure StepState where
  res : ImportResM
  committed : List WDRec
  pending : List WDRec
  fatg : Bool
  rowNum : Nat
deriving DecidableEq

/-- One iteration of the orchestrator loop on one data row: track the
feedback-also-given-to column, validate, then either record the error,
count a silent skip, or build the record and flush it (a rejected
flush rolls the whole uncommitted transaction back and counts a
duplicate; an accepted flush joins the pending rows and is counted). -/
def stepRow (col_mapping : ColMapping) (config : ImportConfig)
    (isoParse : Str → Option Nat) (st : StepState) (row : List Cell) : StepState :=
  let fatg :=
    st.fatg || truthyCell (get_cell_value row col_mapping.feedback_also_given_to)
  match validate_row row st.rowNum col_mapping config with
  | (_, some e) =>
    { st with res := { st.res with errors := st.res.errors ++ [e] }
              fatg := fatg, rowNum := st.rowNum + 1 }
  | (false, none) =>
    { st with res := { st.res with skipped_empty := st.res.skipped_empty + 1 }
              fatg := fatg, rowNum := st.rowNum + 1 }
  | (true, none) =>
    let r := recOfRow col_mapping isoParse row
    if flushViolation st.committed st.pending r then
      { st with
          res := { st.res with
                    skipped_duplicates := st.res.skipped_duplicates + 1 }
          pending := [], fatg := fatg, rowNum := st.rowNum + 1 }
    else
      { st with
          res := { st.res with
                    imported := st.res.imported + 1
                    structured_count :=
                      st.res.structured_count + (if r.is_structured then 1 else 0)
                    generic_count :=
                      st.res.generic_count + (if r.is_structured then 0 else 1) }
          pending := st.pending ++ [r], fatg := fatg, rowNum := st.rowNum + 1 }

/-- The orchestrator loop over the data rows. -/
def processRows (col_mapping : ColMapping) (config : ImportConfig)
    (isoParse : Str → Option Nat) : List (List Cell) → StepState → StepState
  | [], st => st
  | row :: rest, st =>
    processRows col_mapping config isoParse rest
      (stepRow col_mapping config isoParse st row)

/-- Fatal error when no from column was detected. -/
def fromFatalErr : Str :=
  "Cannot import: \x27From\x27/\x27Provider\x27 column not found in spreadsheet".data

/-- Fatal error when no about column was detected. -/
def aboutFatalErr : Str :=
  "Cannot import: \x27About\x27/\x27Recipient\x27 column not found in spreadsheet".data

/-- Post-loop warning about silently skipped rows. -/
def skippedEmptyWarn (n : Nat) : Str :=
  "Skipped ".data ++ natStr n
    ++ " empty/incomplete rows (possibly pending feedback requests)".data

/-- Post-loop warning about the unsupported feedback-also-given-to
column. -/
def fatgWarn : Str :=
  ("Some entries have \x27Feedback Also Given To\x27 values - "
    ++ "this column is not currently supported").data

/-- `import_workday_xlsx` from `import_workday.py`, modelled from the
selected worksheet onward: detect columns, abort on a missing from or
about column, loop over the data rows (which start right after the
header row), commit the surviving pending rows, and append the
post-loop warnings.  Returns the result together with the committed
store. -/
def import_workday_xlsx (config : ImportConfig) (isoParse : Str → Option Nat)
    (ws : List (List Cell)) (db : List WDRec) : ImportResM × List WDRec :=
  let det := detect_columns ws config
  let col_mapping := det.1
  let r0 : ImportResM := { warnings := det.2 }
  if col_mapping.from_name = none then
    ({ r0 with errors := r0.errors ++ [fromFatalErr] }, db)
  else if col_mapping.about = none then
    ({ r0 with errors := r0.errors ++ [aboutFatalErr] }, db)
  else
    let rows := ws.drop config.header_row
    let stF := processRows col_mapping config isoParse rows
      { res := r0, committed := db, pending := [], fatg := false
        rowNum := config.header_row + 1 }
    let store := stF.committed ++ stF.pending
    let res1 :=
      if stF.res.skipped_empty > 0 then
        { stF.res with
            warnings := stF.res.warnings ++ [skippedEmptyWarn stF.res.skipped_empty] }
      else stF.res
    let res2 :=
      if stF.fatg then { res1 with warnings := res1.warnings ++ [fatgWarn] }
      else res1
    (res2, store)

/-- The accepted rows of a sheet fragment: those the validator accepts
(the flag, not the message, decides; the row number only shapes the
message text). -/
def acceptedRows (col_mapping : ColMapping) (config : ImportConfig)
    (rows : List (List Cell)) : List (List Cell) :=
  rows.filter (fun row => (validate_row row 0 col_mapping config).1)

/-- The records the accepted rows of a sheet fragment produce. -/
def acceptedRecs (col_mapping : ColMapping) (config : ImportConfig)
    (isoParse : Str → Option Nat) (rows : List (List Cell)) : List WDRec :=
  (acceptedRows col_mapping config rows).map (recOfRow col_mapping isoParse)

/-- The hard errors the validator produces on a row list, starting at
row number `n`: the store never contributes to this list. -/
def rowErrors (col_mapping : ColMapping) (config : ImportConfig) :
    Nat → List (List Cell) → List Str
  | _, [] => []
  | n, row :: rest =>
    (match (validate_row row n col_mapping config).2 with
      | some e => [e]
      | none => []) ++ rowErrors col_mapping config (n + 1) rest

/-! ### Basic lemmas about the validator and the loop step -/

lemma validate_row_cases (row : List Cell) (n : Nat) (m : ColMapping)
    (cfg : ImportConfig) :
    validate_row row n m cfg = (true, none) ∨
      validate_row row n m cfg = (false, none) ∨
      ∃ e, validate_row row n m cfg = (false, some e) := by
  simp only [validate_row]
  split_ifs <;> simp

lemma validate_row_true_none (row : List Cell) (n : Nat) (m : ColMapping)
    (cfg : ImportConfig) (h : (validate_row row n m cfg).1 = true) :
    validate_row row n m cfg = (true, none) := by
  rcases validate_row_cases row n m cfg with h1 | h1 | ⟨e, h1⟩ <;>
    simp [h1] at h ⊢

lemma validate_row_fst_indep (row : List Cell) (n n' : Nat) (m : ColMapping)
    (cfg : ImportConfig) :
    (validate_row row n m cfg).1 = (validate_row row n' m cfg).1 := by
  simp only [validate_row]
  split_ifs <;> rfl

lemma validate_row_none_indep (row : List Cell) (n n' : Nat) (m : ColMapping)
    (cfg : ImportConfig) (h : validate_row row n m cfg = (false, none)) :
    validate_row row n' m cfg = (false, none) := by
  simp only [validate_row] at h ⊢
  split_ifs at h ⊢ <;> simp_all

lemma validate_row_true_from (row : List Cell) (n : Nat) (m : ColMapping)
    (cfg : ImportConfig) (h : (validate_row row n m cfg).1 = true) :
    truthyCell (get_cell_value row m.from_name) = true := by
  simp only [validate_row] at h
  split_ifs at h with h1 <;> simp_all

lemma truthy_ne_empty (c : Cell) (h : truthyCell c = true) :
    (c == Cell.empty) = false := by
  cases c <;> simp_all [truthyCell]

/-- The from field of a record built from an accepted row is never the
SQL NULL (the validator only accepts rows with a truthy from value). -/
lemma parse_keeps_fields (r : WDRec) :
    (parse_structured_feedback r).1.about = r.about ∧
      (parse_structured_feedback r).1.from_name = r.from_name ∧
      (parse_structured_feedback r).1.question = r.question ∧
      (parse_structured_feedback r).1.date = r.date := by
  unfold parse_structured_feedback
  rcases r.feedback with _ | s | d
  · simp
  · by_cases hs : s = []
    · simp [hs]
    · rcases h2 : reSearch tenetPat s with _ | caps <;> simp [hs, h2]
  · simp

lemma recOfRow_from_name (m : ColMapping) (p : Str → Option Nat)
    (row : List Cell) :
    (recOfRow m p row).from_name = get_cell_value row m.from_name := by
  unfold recOfRow
  exact (parse_keeps_fields _).2.1

lemma recOfRow_accepted_from (m : ColMapping) (cfg : ImportConfig)
    (p : Str → Option Nat) (row : List Cell) (n : Nat)
    (h : (validate_row row n m cfg).1 = true) :
    ((recOfRow m p row).from_name == Cell.empty) = false := by
  rw [recOfRow_from_name]
  exact truthy_ne_empty _ (validate_row_true_from row n m cfg h)

/-! Step lemmas: the four branches of one loop iteration. -/

lemma stepRow_err (m : ColMapping) (cfg : ImportConfig) (p : Str → Option Nat)
    (st : StepState) (row : List Cell) (e : Str)
    (h : validate_row row st.rowNum m cfg = (false, some e)) :
    stepRow m cfg p st row =
      { st with res := { st.res with errors := st.res.errors ++ [e] }
                fatg := st.fatg
                  || truthyCell (get_cell_value row m.feedback_also_given_to)
                rowNum := st.rowNum + 1 } := by
  unfold stepRow
  rw [h]

lemma stepRow_skip (m : ColMapping) (cfg : ImportConfig) (p : Str → Option Nat)
    (st : StepState) (row : List Cell)
    (h : validate_row row st.rowNum m cfg = (false, none)) :
    stepRow m cfg p st row =
      { st with res := { st.res with skipped_empty := st.res.skipped_empty + 1 }
                fatg := st.fatg
                  || truthyCell (get_cell_value row m.feedback_also_given_to)
                rowNum := st.rowNum + 1 } := by
  unfold stepRow
  rw [h]

lemma stepRow_dup (m : ColMapping) (cfg : ImportConfig) (p : Str → Option Nat)
    (st : StepState) (row : List Cell)
    (h : validate_row row st.rowNum m cfg = (true, none))
    (hf : flushViolation st.committed st.pending (recOfRow m p row) = true) :
    stepRow m cfg p st row =
      { st with
          res := { st.res with
                    skipped_duplicates := st.res.skipped_duplicates + 1 }
          pending := []
          fatg := st.fatg
            || truthyCell (get_cell_value row m.feedback_also_given_to)
          rowNum := st.rowNum + 1 } := by
  unfold stepRow
  rw [h]
  simp [hf]

lemma stepRow_ins (m : ColMapping) (cfg : ImportConfig) (p : Str → Option Nat)
    (st : StepState) (row : List Cell)
    (h : validate_row row st.rowNum m cfg = (true, none))
    (hf : flushViolation st.committed st.pending (recOfRow m p row) = false) :
    stepRow m cfg p st row =
      { st with
          res := { st.res with
                    imported := st.res.imported + 1
                    structured_count := st.res.structured_count
                      + (if (recOfRow m p row).is_structured then 1 else 0)
                    generic_count := st.res.generic_count
                      + (if (recOfRow m p row).is_structured then 0 else 1) }
          pending := st.pending ++ [recOfRow m p row]
          fatg := st.fatg
            || truthyCell (get_cell_value row m.feedback_also_given_to)
          rowNum := st.rowNum + 1 } := by
  unfold stepRow
  rw [h]
  simp [hf]

lemma acceptedRecs_cons (m : ColMapping) (cfg : ImportConfig)
    (p : Str → Option Nat) (row : List Cell) (rest : List (List Cell)) :
    acceptedRecs m cfg p (row :: rest) =
      if (validate_row row 0 m cfg).1 then
        recOfRow m p row :: acceptedRecs m cfg p rest
      else acceptedRecs m cfg p rest := by
  simp only [acceptedRecs, acceptedRows, List.filter_cons]
  split_ifs <;> simp_all

/-! ### Claim C6: record structural invariant -/

lemma parse_inv (r : WDRec) (h0 : r.is_structured = false)
    (h1 : r.strengths = none) (h2 : r.improvements = none) :
    ((parse_structured_feedback r).1.is_structured = false →
      (parse_structured_feedback r).1.strengths = none ∧
        (parse_structured_feedback r).1.improvements = none) ∧
    ((parse_structured_feedback r).1.is_structured = true →
      (parse_structured_feedback r).1.strengths.isSome = true ∧
        (parse_structured_feedback r).1.improvements.isSome = true) := by
  unfold parse_structured_feedback
  rcases hf : r.feedback with _ | s | d
  · simp [h0, h1, h2]
  · by_cases hs : s = []
    · simp [hs, h0, h1, h2]
    · rcases h3 : reSearch tenetPat s with _ | caps <;> simp [hs, h3, h1, h2]
  · simp [h0, h1, h2]

/-- Claim C6: a record produced by the pipeline (built from a row and
run through the structured-feedback extractor) has both ID-list fields
absent when it is not structured, and both ID-list fields populated
(assigned a JSON array, possibly empty) when it is structured. -/
theorem claim_C6 (m : ColMapping) (p : Str → Option Nat) (row : List Cell) :
    ((recOfRow m p row).is_structured = false →
      (recOfRow m p row).strengths = none ∧
        (recOfRow m p row).improvements = none) ∧
    ((recOfRow m p row).is_structured = true →
      (recOfRow m p row).strengths.isSome = true ∧
        (recOfRow m p row).improvements.isSome = true) := by
  unfold recOfRow
  exact parse_inv _ rfl rfl rfl

/-- Witness for C6 at a concrete structured row. -/
theorem claim_C6_witness :
    (recOfRow { feedback := some 0 } (fun _ => none)
        [Cell.str "[TENETS]\nStrengths: a\nImprovements: b\n[/TENETS]".data]).is_structured
        = true ∧
    (recOfRow { feedback := some 0 } (fun _ => none)
        [Cell.str "[TENETS]\nStrengths: a\nImprovements: b\n[/TENETS]".data]).strengths.isSome
        = true := by
  refine ⟨by decide, ?_⟩
  exact (claim_C6 { feedback := some 0 } (fun _ => none)
    [Cell.str "[TENETS]\nStrengths: a\nImprovements: b\n[/TENETS]".data]).2
    (by decide) |>.1

/-! ### Claim C8: the row-validator trichotomy -/

lemma selfMsg_has_row (n : Nat) (a t : Cell) (cfg : ImportConfig) :
    ∃ u v, inconsistSelfMsg n a t cfg = u ++ natStr n ++ v := by
  refine ⟨"Row ".data,
    ": Data inconsistency - About \x27".data ++ cellStr a
      ++ "\x27 matches Asked By but Type is \x27".data ++ cellStr t
      ++ "\x27 (expected \x27".data ++ cfg.request_types.selfLabel
      ++ "\x27)".data, ?_⟩
  simp [inconsistSelfMsg, List.append_assoc]

lemma selfMsg_has_about (n : Nat) (a t : Cell) (cfg : ImportConfig) :
    ∃ u v, inconsistSelfMsg n a t cfg = u ++ cellStr a ++ v := by
  refine ⟨"Row ".data ++ natStr n ++ ": Data inconsistency - About \x27".data,
    "\x27 matches Asked By but Type is \x27".data ++ cellStr t
      ++ "\x27 (expected \x27".data ++ cfg.request_types.selfLabel
      ++ "\x27)".data, ?_⟩
  simp [inconsistSelfMsg, List.append_assoc]

lemma selfMsg_has_type (n : Nat) (a t : Cell) (cfg : ImportConfig) :
    ∃ u v, inconsistSelfMsg n a t cfg = u ++ cellStr t ++ v := by
  refine ⟨"Row ".data ++ natStr n ++ ": Data inconsistency - About \x27".data
      ++ cellStr a ++ "\x27 matches Asked By but Type is \x27".data,
    "\x27 (expected \x27".data ++ cfg.request_types.selfLabel
      ++ "\x27)".data, ?_⟩
  simp [inconsistSelfMsg, List.append_assoc]

lemma othersMsg_has_row (n : Nat) (a b t : Cell) (cfg : ImportConfig) :
    ∃ u v, inconsistOthersMsg n a b t cfg = u ++ natStr n ++ v := by
  refine ⟨"Row ".data,
    ": Data inconsistency - About \x27".data ++ cellStr a
      ++ "\x27 differs from Asked By \x27".data ++ cellStr b
      ++ "\x27 but Type is \x27".data ++ cellStr t
      ++ "\x27 (expected \x27".data ++ cfg.request_types.othersLabel
      ++ "\x27)".data, ?_⟩
  simp [inconsistOthersMsg, List.append_assoc]

lemma othersMsg_has_about (n : Nat) (a b t : Cell) (cfg : ImportConfig) :
    ∃ u v, inconsistOthersMsg n a b t cfg = u ++ cellStr a ++ v := by
  refine ⟨"Row ".data ++ natStr n ++ ": Data inconsistency - About \x27".data,
    "\x27 differs from Asked By \x27".data ++ cellStr b
      ++ "\x27 but Type is \x27".data ++ cellStr t
      ++ "\x27 (expected \x27".data ++ cfg.request_types.othersLabel
      ++ "\x27)".data, ?_⟩
  simp [inconsistOthersMsg, List.append_assoc]

lemma othersMsg_has_type (n : Nat) (a b t : Cell) (cfg : ImportConfig) :
    ∃ u v, inconsistOthersMsg n a b t cfg = u ++ cellStr t ++ v := by
  refine ⟨"Row ".data ++ natStr n ++ ": Data inconsistency - About \x27".data
      ++ cellStr a ++ "\x27 differs from Asked By \x27".data ++ cellStr b
      ++ "\x27 but Type is \x27".data,
    "\x27 (expected \x27".data ++ cfg.request_types.othersLabel
      ++ "\x27)".data, ?_⟩
  simp [inconsistOthersMsg, List.append_assoc]

/-- Claim C8: the validator silently skips rows with a falsy from
value; rejects with a message naming the row number and the
conflicting values when about, asked by and request type are all
present and inconsistent; and accepts otherwise (in particular the
consistency check is skipped when any of the three is absent). -/
theorem claim_C8 (row : List Cell) (n : Nat) (m : ColMapping)
    (cfg : ImportConfig) :
    (truthyCell (get_cell_value row m.from_name) = false →
      validate_row row n m cfg = (false, none)) ∧
    (truthyCell (get_cell_value row m.from_name) = true →
      truthyCell (get_cell_value row m.about) = true →
      truthyCell (get_cell_value row m.asked_by) = true →
      truthyCell (get_cell_value row m.request_type) = true →
      ((get_cell_value row m.about == get_cell_value row m.asked_by) = true ∧
          (get_cell_value row m.request_type
            == Cell.str cfg.request_types.selfLabel) = false ∨
        (get_cell_value row m.about == get_cell_value row m.asked_by) = false ∧
          (get_cell_value row m.request_type
            == Cell.str cfg.request_types.othersLabel) = false) →
      (validate_row row n m cfg).1 = false ∧
      ∃ msg, (validate_row row n m cfg).2 = some msg ∧
        (∃ u v, msg = u ++ natStr n ++ v) ∧
        (∃ u v, msg = u ++ cellStr (get_cell_value row m.about) ++ v) ∧
        (∃ u v, msg = u ++ cellStr (get_cell_value row m.request_type) ++ v)) ∧
    (truthyCell (get_cell_value row m.from_name) = true →
      (¬(truthyCell (get_cell_value row m.about) = true ∧
          truthyCell (get_cell_value row m.asked_by) = true ∧
          truthyCell (get_cell_value row m.request_type) = true) ∨
        ((get_cell_value row m.about == get_cell_value row m.asked_by) = true →
          (get_cell_value row m.request_type
            == Cell.str cfg.request_types.selfLabel) = true) ∧
        ((get_cell_value row m.about == get_cell_value row m.asked_by) = false →
          (get_cell_value row m.request_type
            == Cell.str cfg.request_types.othersLabel) = true)) →
      validate_row row n m cfg = (true, none)) := by
  refine ⟨fun h1 => ?_, fun h1 h2 h3 h4 h5 => ?_, fun h1 h2 => ?_⟩
  · simp [validate_row, h1]
  · rcases h5 with ⟨he, hs⟩ | ⟨he, hs⟩
    · refine ⟨by simp [validate_row, h1, h2, h3, h4, he, hs], ?_⟩
      exact ⟨inconsistSelfMsg n (get_cell_value row m.about)
        (get_cell_value row m.request_type) cfg,
        by simp [validate_row, h1, h2, h3, h4, he, hs],
        selfMsg_has_row n _ _ cfg, selfMsg_has_about n _ _ cfg,
        selfMsg_has_type n _ _ cfg⟩
    · refine ⟨by simp [validate_row, h1, h2, h3, h4, he, hs], ?_⟩
      exact ⟨inconsistOthersMsg n (get_cell_value row m.about)
        (get_cell_value row m.asked_by)
        (get_cell_value row m.request_type) cfg,
        by simp [validate_row, h1, h2, h3, h4, he, hs],
        othersMsg_has_row n _ _ _ cfg, othersMsg_has_about n _ _ _ cfg,
        othersMsg_has_type n _ _ _ cfg⟩
  · rcases h2 with h2 | ⟨hi1, hi2⟩
    · simp only [validate_row]
      rw [if_neg (by simp [h1])]
      rw [if_neg (by
        intro hc
        rw [Bool.and_eq_true, Bool.and_eq_true] at hc
        exact h2 ⟨hc.1.1, hc.1.2, hc.2⟩)]
    · simp only [validate_row]
      rw [if_neg (by simp [h1])]
      by_cases hall : (truthyCell (get_cell_value row m.about)
          && truthyCell (get_cell_value row m.asked_by)
          && truthyCell (get_cell_value row m.request_type)) = true
      · rw [if_pos hall]
        by_cases he : (get_cell_value row m.about
            == get_cell_value row m.asked_by) = true
        · rw [if_neg (by simp [he, hi1 he])]
          rw [if_neg (by simp [he])]
        · have he' : (get_cell_value row m.about
              == get_cell_value row m.asked_by) = false := by
            simpa using he
          rw [if_neg (by simp [he']), if_neg (by simp [he', hi2 he'])]
      · rw [if_neg hall]

/-- Witness for C8 on concrete rows exercising the three outcomes. -/
theorem claim_C8_witness :
    validate_row [Cell.str "A".data, Cell.empty, Cell.str "A".data,
        Cell.str "x".data] 7
      { about := some 0, from_name := some 1, asked_by := some 2,
        request_type := some 3 } DEFAULT_CONFIG = (false, none) ∧
    (validate_row [Cell.str "A".data, Cell.str "B".data, Cell.str "A".data,
        Cell.str "x".data] 7
      { about := some 0, from_name := some 1, asked_by := some 2,
        request_type := some 3 } DEFAULT_CONFIG).1 = false ∧
    validate_row [Cell.str "A".data, Cell.str "B".data, Cell.empty,
        Cell.str "x".data] 7
      { about := some 0, from_name := some 1, asked_by := some 2,
        request_type := some 3 } DEFAULT_CONFIG = (true, none) := by
  refine ⟨(claim_C8 _ 7 _ DEFAULT_CONFIG).1 (by decide), ?_, ?_⟩
  · exact ((claim_C8 _ 7 _ DEFAULT_CONFIG).2.1 (by decide) (by decide)
      (by decide) (by decide) (Or.inl ⟨by decide, by decide⟩)).1
  · exact (claim_C8 _ 7 _ DEFAULT_CONFIG).2.2 (by decide)
      (Or.inl (by decide))

/-! ### Claim C10: silent-skip precedence over the consistency check -/

/-- Claim C10: a row whose from value is falsy is silently skipped
(flag false, no message) even if about, asked by and request type are
all present and inconsistent: the validator checks the from value
first, and the orchestrator counts the row under skipped_empty and
moves on to the next row without touching errors or the store. -/
theorem claim_C10 (row : List Cell) (m : ColMapping) (cfg : ImportConfig)
    (p : Str → Option Nat) (st : StepState) (rest : List (List Cell)) :
    truthyCell (get_cell_value row m.from_name) = false →
    validate_row row st.rowNum m cfg = (false, none) ∧
    stepRow m cfg p st row =
      { st with
          res := { st.res with skipped_empty := st.res.skipped_empty + 1 }
          fatg := st.fatg
            || truthyCell (get_cell_value row m.feedback_also_given_to)
          rowNum := st.rowNum + 1 } ∧
    processRows m cfg p (row :: rest) st =
      processRows m cfg p rest (stepRow m cfg p st row) := by
  intro h
  have hv : validate_row row st.rowNum m cfg = (false, none) := by
    simp [validate_row, h]
  exact ⟨hv, stepRow_skip m cfg p st row hv, rfl⟩

/-- Witness for C10: empty from value beside an inconsistent triple. -/
theorem claim_C10_witness :
    validate_row [Cell.str "A".data, Cell.empty, Cell.str "A".data,
        Cell.str "x".data] 3
      { about := some 0, from_name := some 1, asked_by := some 2,
        request_type := some 3 } DEFAULT_CONFIG = (false, none) ∧
    (stepRow
        { about := some 0, from_name := some 1, asked_by := some 2,
          request_type := some 3 } DEFAULT_CONFIG (fun _ => none)
        { res := {}, committed := [], pending := [], fatg := false, rowNum := 3 }
        [Cell.str "A".data, Cell.empty, Cell.str "A".data,
          Cell.str "x".data]).res.skipped_empty = 1 := by
  have h := claim_C10
    [Cell.str "A".data, Cell.empty, Cell.str "A".data, Cell.str "x".data]
    { about := some 0, from_name := some 1, asked_by := some 2,
      request_type := some 3 } DEFAULT_CONFIG (fun _ => none)
    { res := {}, committed := [], pending := [], fatg := false, rowNum := 3 }
    [] (by decide)
  exact ⟨h.1, by rw [h.2.1]⟩

/-! ### Claim C3: duplicate handling never errors, never aborts -/

lemma processRows_errors (m : ColMapping) (cfg : ImportConfig)
    (p : Str → Option Nat) (rows : List (List Cell)) (st : StepState) :
    (processRows m cfg p rows st).res.errors
      = st.res.errors ++ rowErrors m cfg st.rowNum rows := by
  induction rows generalizing st with
  | nil => simp [processRows, rowErrors]
  | cons row rest ih =>
    rcases validate_row_cases row st.rowNum m cfg with hv | hv | ⟨e, hv⟩
    · by_cases hf : flushViolation st.committed st.pending (recOfRow m p row) = true
      · rw [processRows, ih, stepRow_dup m cfg p st row hv hf]
        simp [rowErrors, hv]
      · rw [processRows, ih,
          stepRow_ins m cfg p st row hv (by simpa using hf)]
        simp [rowErrors, hv]
    · rw [processRows, ih, stepRow_skip m cfg p st row hv]
      simp [rowErrors, hv]
    · rw [processRows, ih, stepRow_err m cfg p st row e hv]
      simp [rowErrors, hv]

/-- Claim C3: when an accepted row collides on the natural key, the
loop counts a duplicate and continues with the next row (the session
rollback empties the pending rows); and over any run the error list is
exactly what the validator produced, independent of the store, so a
collision is never reported as an error and never aborts or escapes
the run. -/
theorem claim_C3 :
    (∀ (m : ColMapping) (cfg : ImportConfig) (p : Str → Option Nat)
        (st : StepState) (row : List Cell) (rest : List (List Cell)),
      (validate_row row st.rowNum m cfg).1 = true →
      (st.committed ++ st.pending).any
          (fun q => keyConflict (recOfRow m p row) q) = true →
      stepRow m cfg p st row =
        { st with
            res := { st.res with
                      skipped_duplicates := st.res.skipped_duplicates + 1 }
            pending := []
            fatg := st.fatg
              || truthyCell (get_cell_value row m.feedback_also_given_to)
            rowNum := st.rowNum + 1 } ∧
      processRows m cfg p (row :: rest) st =
        processRows m cfg p rest (stepRow m cfg p st row)) ∧
    (∀ (m : ColMapping) (cfg : ImportConfig) (p : Str → Option Nat)
        (rows : List (List Cell)) (st : StepState),
      (processRows m cfg p rows st).res.errors
        = st.res.errors ++ rowErrors m cfg st.rowNum rows) := by
  constructor
  · intro m cfg p st row rest hv hc
    have hv' := validate_row_true_none row st.rowNum m cfg hv
    have hf : flushViolation st.committed st.pending (recOfRow m p row) = true := by
      simp [flushViolation, hc]
    exact ⟨stepRow_dup m cfg p st row hv' hf, rfl⟩
  · exact processRows_errors

/-- Witness for C3 at a concrete colliding row. -/
theorem claim_C3_witness :
    (stepRow
        { about := some 0, from_name := some 1, question := some 2,
          date := some 3 } DEFAULT_CONFIG (fun _ => none)
        { res := {}, committed :=
            [{ about := Cell.str "A".data, from_name := Cell.str "B".data,
               question := Cell.str "Q".data, feedback := Cell.empty,
               asked_by := Cell.empty, request_type := Cell.empty,
               date := some 5 }],
          pending := [], fatg := false, rowNum := 3 }
        [Cell.str "A".data, Cell.str "B".data, Cell.str "Q".data,
          Cell.dt 5]).res.skipped_duplicates = 1 := by
  have h :=
    (claim_C3.1
      { about := some 0, from_name := some 1, question := some 2,
        date := some 3 } DEFAULT_CONFIG (fun _ => none)
      { res := {}, committed :=
          [{ about := Cell.str "A".data, from_name := Cell.str "B".data,
             question := Cell.str "Q".data, feedback := Cell.empty,
             asked_by := Cell.empty, request_type := Cell.empty,
             date := some 5 }],
        pending := [], fatg := false, rowNum := 3 }
      [Cell.str "A".data, Cell.str "B".data, Cell.str "Q".data, Cell.dt 5]
      [] (by decide) (by decide)).1
  rw [h]

/-! ### Claim C9: missing mandatory column aborts the run -/

/-- Claim C9 as amended: when the from mapping is absent the run
returns immediately with exactly one fatal error (the from message,
even if the about mapping is absent too), no rows processed and the
store untouched; when only the about mapping is absent it returns the
single about error likewise.  Success is false in both cases since the
error list is nonempty. -/
theorem claim_C9_amended (cfg : ImportConfig) (p : Str → Option Nat)
    (ws : List (List Cell)) (db : List WDRec) :
    ((detect_columns ws cfg).1.from_name = none →
      import_workday_xlsx cfg p ws db =
        ({ warnings := (detect_columns ws cfg).2, errors := [fromFatalErr] }, db) ∧
      (import_workday_xlsx cfg p ws db).1.success = false) ∧
    ((detect_columns ws cfg).1.from_name ≠ none →
      (detect_columns ws cfg).1.about = none →
      import_workday_xlsx cfg p ws db =
        ({ warnings := (detect_columns ws cfg).2, errors := [aboutFatalErr] }, db) ∧
      (import_workday_xlsx cfg p ws db).1.success = false) := by
  constructor
  · intro h
    have he : import_workday_xlsx cfg p ws db =
        ({ warnings := (detect_columns ws cfg).2, errors := [fromFatalErr] }, db) := by
      unfold import_workday_xlsx
      rw [if_pos h]
      simp
    exact ⟨he, by rw [he]; rfl⟩
  · intro h1 h2
    have he : import_workday_xlsx cfg p ws db =
        ({ warnings := (detect_columns ws cfg).2, errors := [aboutFatalErr] }, db) := by
      unfold import_workday_xlsx
      rw [if_neg h1, if_pos h2]
      simp
    exact ⟨he, by rw [he]; rfl⟩

/-- Witness for the amended C9 at a concrete sheet with only the from
column missing. -/
theorem claim_C9_witness :
    import_workday_xlsx DEFAULT_CONFIG (fun _ => none)
        [[], [Cell.str "About".data]] [] =
      ({ warnings := (detect_columns [[], [Cell.str "About".data]]
          DEFAULT_CONFIG).2, errors := [fromFatalErr] }, []) := by
  exact ((claim_C9_amended DEFAULT_CONFIG (fun _ => none)
    [[], [Cell.str "About".data]] []).1 (by decide)).1

/-- Counterexample to C9 as stated: a sheet whose only header is
"Photo" leaves both the from and the about mapping absent, yet the run
reports a single fatal error, not one per missing field. -/
theorem claim_C9_counterexample :
    (detect_columns [[], [Cell.str "Photo".data]] DEFAULT_CONFIG).1.from_name
        = none ∧
    (detect_columns [[], [Cell.str "Photo".data]] DEFAULT_CONFIG).1.about
        = none ∧
    (import_workday_xlsx DEFAULT_CONFIG (fun _ => none)
        [[], [Cell.str "Photo".data]] []).1.errors.length = 1 := by
  refine ⟨by decide, by decide, by decide⟩

/-! ### Claim C7: column-detection precedence -/

lemma findIdxO_eq_some_of {α : Type} (p : α → Bool) (l : List α) (d : α)
    (i : Nat) (hi : i < l.length) (hp : p (l.getD i d) = true)
    (hmin : ∀ j, j < i → p (l.getD j d) = false) :
    findIdxO p l = some i := by
  induction l generalizing i with
  | nil => simp at hi
  | cons a t ih =>
    cases i with
    | zero =>
      simp [List.getD] at hp
      simp [findIdxO, hp]
    | succ j =>
      have h0 : p a = false := by
        have := hmin 0 (Nat.succ_pos j)
        simpa [List.getD] using this
      have ht : findIdxO p t = some j := by
        refine ih j (by simpa using hi) (by simpa [List.getD] using hp) ?_
        intro k hk
        have := hmin (k + 1) (by omega)
        simpa [List.getD] using this
      simp [findIdxO, h0, ht]

lemma findIdxO_eq_none_of {α : Type} (p : α → Bool) (l : List α) (d : α)
    (hall : ∀ j, j < l.length → p (l.getD j d) = false) :
    findIdxO p l = none := by
  induction l with
  | nil => rfl
  | cons a t ih =>
    have h0 : p a = false := by
      have := hall 0 (by simp)
      simpa [List.getD] using this
    have ht : findIdxO p t = none := by
      refine ih ?_
      intro j hj
      have := hall (j + 1) (by simpa using Nat.succ_lt_succ hj)
      simpa [List.getD] using this
    simp [findIdxO, h0, ht]

/-- Claim C7: for each required field the detector records the
leftmost exact case-insensitive synonym match; only when no exact
match exists anywhere does it record the leftmost header that starts
with a synonym, skipping every header containing the substring
"photo"; in particular headers About Photo and About map the about
field to the index of About. -/
theorem claim_C7 :
    (∀ (syns : List Str) (headers : List Str) (i : Nat),
      i < headers.length →
      (syns.any (fun nm => lowerStr nm == headers.getD i [])) = true →
      (∀ j, j < i →
        (syns.any (fun nm => lowerStr nm == headers.getD j [])) = false) →
      detectRequired syns headers = some i) ∧
    (∀ (syns : List Str) (headers : List Str) (i : Nat),
      (∀ j, j < headers.length →
        (syns.any (fun nm => lowerStr nm == headers.getD j [])) = false) →
      i < headers.length →
      (!(containsSub "photo".data (headers.getD i []))
        && syns.any (fun nm => startsWithL (lowerStr nm) (headers.getD i [])))
        = true →
      (∀ j, j < i →
        (!(containsSub "photo".data (headers.getD j []))
          && syns.any (fun nm => startsWithL (lowerStr nm) (headers.getD j [])))
          = false) →
      detectRequired syns headers = some i) ∧
    (detect_columns [[], [Cell.str "About Photo".data, Cell.str "About".data]]
        DEFAULT_CONFIG).1.about = some 1 := by
  refine ⟨?_, ?_, by decide⟩
  · intro syns headers i hi hp hmin
    unfold detectRequired
    rw [findIdxO_eq_some_of _ headers [] i hi hp hmin]
  · intro syns headers i hnone hi hp hmin
    unfold detectRequired
    rw [findIdxO_eq_none_of _ headers [] hnone]
    rw [findIdxO_eq_some_of _ headers [] i hi hp hmin]

/-- Witness for C7: exact match beats an earlier prefix match, and the
photo exclusion applies on the fallback pass. -/
theorem claim_C7_witness :
    detectRequired ["about".data] ["about photo".data, "about".data] = some 1 ∧
    detectRequired ["about".data] ["about photo".data, "recipient x".data,
        "about y".data] = some 2 := by
  constructor
  · refine claim_C7.1 ["about".data] ["about photo".data, "about".data] 1
      (by decide) (by decide) ?_
    intro j hj
    interval_cases j
    decide
  · refine claim_C7.2.1 ["about".data]
      ["about photo".data, "recipient x".data, "about y".data] 2 ?_
      (by decide) (by decide) ?_
    · intro j hj
      have hj3 : j < 3 := by simpa using hj
      interval_cases j <;> decide
    · intro j hj
      interval_cases j <;> decide

/-! ### Runs without and with store rejections -/

lemma processRows_nil (m : ColMapping) (cfg : ImportConfig)
    (p : Str → Option Nat) (st : StepState) :
    processRows m cfg p [] st = st := rfl

lemma processRows_cons (m : ColMapping) (cfg : ImportConfig)
    (p : Str → Option Nat) (row : List Cell) (rest : List (List Cell))
    (st : StepState) :
    processRows m cfg p (row :: rest) st
      = processRows m cfg p rest (stepRow m cfg p st row) := rfl

lemma acceptedRecs_cons_pos (m : ColMapping) (cfg : ImportConfig)
    (p : Str → Option Nat) (row : List Cell) (rest : List (List Cell))
    (h : (validate_row row 0 m cfg).1 = true) :
    acceptedRecs m cfg p (row :: rest)
      = recOfRow m p row :: acceptedRecs m cfg p rest := by
  rw [acceptedRecs_cons]
  simp [h]

lemma acceptedRecs_cons_neg (m : ColMapping) (cfg : ImportConfig)
    (p : Str → Option Nat) (row : List Cell) (rest : List (List Cell))
    (h : (validate_row row 0 m cfg).1 = false) :
    acceptedRecs m cfg p (row :: rest) = acceptedRecs m cfg p rest := by
  rw [acceptedRecs_cons]
  simp [h]

/-- A run in which every accepted record is NOT NULL safe, the
accepted records are pairwise conflict free, and none conflicts with
the transaction contents at entry: every accepted record is flushed,
nothing is rolled back, and no duplicate is counted. -/
lemma processRows_clean (m : ColMapping) (cfg : ImportConfig)
    (p : Str → Option Nat) (rows : List (List Cell)) (st : StepState)
    (hA : ∀ r ∈ acceptedRecs m cfg p rows, (r.about == Cell.empty) = false)
    (hP : List.Pairwise (fun a b => keyConflict b a = false)
      (acceptedRecs m cfg p rows))
    (hD : ∀ r ∈ acceptedRecs m cfg p rows,
      ∀ q ∈ st.committed ++ st.pending, keyConflict r q = false) :
    (processRows m cfg p rows st).committed = st.committed ∧
    (processRows m cfg p rows st).pending
      = st.pending ++ acceptedRecs m cfg p rows ∧
    (processRows m cfg p rows st).res.imported
      = st.res.imported + (acceptedRecs m cfg p rows).length ∧
    (processRows m cfg p rows st).res.skipped_duplicates
      = st.res.skipped_duplicates := by
  induction rows generalizing st with
  | nil => simp [processRows_nil, acceptedRecs, acceptedRows]
  | cons row rest ih =>
    rcases validate_row_cases row st.rowNum m cfg with hv | hv | ⟨e, hv⟩
    · have hacc : (validate_row row 0 m cfg).1 = true := by
        rw [validate_row_fst_indep row 0 st.rowNum m cfg, hv]
      rw [acceptedRecs_cons_pos m cfg p row rest hacc] at hA hP hD ⊢
      have hab : ((recOfRow m p row).about == Cell.empty) = false :=
        hA _ (List.mem_cons_self _ _)
      have hfn : ((recOfRow m p row).from_name == Cell.empty) = false :=
        recOfRow_accepted_from m cfg p row st.rowNum (by rw [hv])
      have hany : ((st.committed ++ st.pending).any
          (fun q => keyConflict (recOfRow m p row) q)) = false := by
        rw [List.any_eq_false]
        intro q hq
        simp [hD _ (List.mem_cons_self _ _) q hq]
      have hflush : flushViolation st.committed st.pending (recOfRow m p row)
          = false := by
        simp [flushViolation, hab, hfn, hany]
      have e := stepRow_ins m cfg p st row hv hflush
      have ec : (stepRow m cfg p st row).committed = st.committed := by rw [e]
      have ep : (stepRow m cfg p st row).pending
          = st.pending ++ [recOfRow m p row] := by rw [e]
      have ei : (stepRow m cfg p st row).res.imported
          = st.res.imported + 1 := by rw [e]
      have es : (stepRow m cfg p st row).res.skipped_duplicates
          = st.res.skipped_duplicates := by rw [e]
      have hPhead := (List.pairwise_cons.mp hP).1
      have hPtail := (List.pairwise_cons.mp hP).2
      have hD2 : ∀ r' ∈ acceptedRecs m cfg p rest,
          ∀ q ∈ (stepRow m cfg p st row).committed
            ++ (stepRow m cfg p st row).pending, keyConflict r' q = false := by
        intro r' hr' q hq
        rw [ec, ep] at hq
        have hq' : q ∈ (st.committed ++ st.pending) ++ [recOfRow m p row] := by
          simpa [List.append_assoc] using hq
        rcases List.mem_append.mp hq' with hq2 | hq2
        · exact hD r' (List.mem_cons_of_mem _ hr') q hq2
        · have hq3 : q = recOfRow m p row := by simpa using hq2
          rw [hq3]
          exact hPhead r' hr'
      obtain ⟨ih1, ih2, ih3, ih4⟩ := ih (stepRow m cfg p st row)
        (fun r' h => hA r' (List.mem_cons_of_mem _ h)) hPtail hD2
      refine ⟨?_, ?_, ?_, ?_⟩
      · rw [processRows_cons, ih1, ec]
      · rw [processRows_cons, ih2, ep]
        simp [List.append_assoc]
      · rw [processRows_cons, ih3, ei]
        simp only [List.length_cons]
        omega
      · rw [processRows_cons, ih4, es]
    · have hacc : (validate_row row 0 m cfg).1 = false := by
        rw [validate_row_fst_indep row 0 st.rowNum m cfg, hv]
      rw [acceptedRecs_cons_neg m cfg p row rest hacc] at hA hP hD ⊢
      have e := stepRow_skip m cfg p st row hv
      have ec : (stepRow m cfg p st row).committed = st.committed := by rw [e]
      have ep : (stepRow m cfg p st row).pending = st.pending := by rw [e]
      have ei : (stepRow m cfg p st row).res.imported = st.res.imported := by
        rw [e]
      have es : (stepRow m cfg p st row).res.skipped_duplicates
          = st.res.skipped_duplicates := by rw [e]
      have hD2 : ∀ r' ∈ acceptedRecs m cfg p rest,
          ∀ q ∈ (stepRow m cfg p st row).committed
            ++ (stepRow m cfg p st row).pending, keyConflict r' q = false := by
        intro r' hr' q hq
        rw [ec, ep] at hq
        exact hD r' hr' q hq
      obtain ⟨ih1, ih2, ih3, ih4⟩ := ih (stepRow m cfg p st row) hA hP hD2
      exact ⟨by rw [processRows_cons, ih1, ec],
        by rw [processRows_cons, ih2, ep],
        by rw [processRows_cons, ih3, ei],
        by rw [processRows_cons, ih4, es]⟩
    · have hacc : (validate_row row 0 m cfg).1 = false := by
        rw [validate_row_fst_indep row 0 st.rowNum m cfg, hv]
      rw [acceptedRecs_cons_neg m cfg p row rest hacc] at hA hP hD ⊢
      have e2 := stepRow_err m cfg p st row e hv
      have ec : (stepRow m cfg p st row).committed = st.committed := by rw [e2]
      have ep : (stepRow m cfg p st row).pending = st.pending := by rw [e2]
      have ei : (stepRow m cfg p st row).res.imported = st.res.imported := by
        rw [e2]
      have es : (stepRow m cfg p st row).res.skipped_duplicates
          = st.res.skipped_duplicates := by rw [e2]
      have hD2 : ∀ r' ∈ acceptedRecs m cfg p rest,
          ∀ q ∈ (stepRow m cfg p st row).committed
            ++ (stepRow m cfg p st row).pending, keyConflict r' q = false := by
        intro r' hr' q hq
        rw [ec, ep] at hq
        exact hD r' hr' q hq
      obtain ⟨ih1, ih2, ih3, ih4⟩ := ih (stepRow m cfg p st row) hA hP hD2
      exact ⟨by rw [processRows_cons, ih1, ec],
        by rw [processRows_cons, ih2, ep],
        by rw [processRows_cons, ih3, ei],
        by rw [processRows_cons, ih4, es]⟩

/-- A run entered with an empty transaction in which every accepted
record collides with the committed store: every accepted row is
counted as a duplicate, nothing is imported, the store is unchanged. -/
lemma processRows_dup (m : ColMapping) (cfg : ImportConfig)
    (p : Str → Option Nat) (rows : List (List Cell)) (st : StepState)
    (hpend : st.pending = [])
    (hdup : ∀ r ∈ acceptedRecs m cfg p rows,
      st.committed.any (fun q => keyConflict r q) = true) :
    (processRows m cfg p rows st).committed = st.committed ∧
    (processRows m cfg p rows st).pending = [] ∧
    (processRows m cfg p rows st).res.imported = st.res.imported ∧
    (processRows m cfg p rows st).res.skipped_duplicates
      = st.res.skipped_duplicates + (acceptedRecs m cfg p rows).length := by
  induction rows generalizing st with
  | nil => simp [processRows_nil, acceptedRecs, acceptedRows, hpend]
  | cons row rest ih =>
    rcases validate_row_cases row st.rowNum m cfg with hv | hv | ⟨e, hv⟩
    · have hacc : (validate_row row 0 m cfg).1 = true := by
        rw [validate_row_fst_indep row 0 st.rowNum m cfg, hv]
      rw [acceptedRecs_cons_pos m cfg p row rest hacc] at hdup ⊢
      have hany : ((st.committed ++ st.pending).any
          (fun q => keyConflict (recOfRow m p row) q)) = true := by
        rw [hpend]
        simpa using hdup _ (List.mem_cons_self _ _)
      have hflush : flushViolation st.committed st.pending (recOfRow m p row)
          = true := by
        simp [flushViolation, hany]
      have e := stepRow_dup m cfg p st row hv hflush
      have ec : (stepRow m cfg p st row).committed = st.committed := by rw [e]
      have ep : (stepRow m cfg p st row).pending = [] := by rw [e]
      have ei : (stepRow m cfg p st row).res.imported = st.res.imported := by
        rw [e]
      have es : (stepRow m cfg p st row).res.skipped_duplicates
          = st.res.skipped_duplicates + 1 := by rw [e]
      have hdup2 : ∀ r' ∈ acceptedRecs m cfg p rest,
          ((stepRow m cfg p st row).committed.any
            (fun q => keyConflict r' q)) = true := by
        intro r' hr'
        rw [ec]
        exact hdup r' (List.mem_cons_of_mem _ hr')
      obtain ⟨ih1, ih2, ih3, ih4⟩ := ih (stepRow m cfg p st row) ep hdup2
      refine ⟨by rw [processRows_cons, ih1, ec],
        by rw [processRows_cons, ih2], by rw [processRows_cons, ih3, ei], ?_⟩
      rw [processRows_cons, ih4, es]
      simp only [List.length_cons]
      omega
    · have hacc : (validate_row row 0 m cfg).1 = false := by
        rw [validate_row_fst_indep row 0 st.rowNum m cfg, hv]
      rw [acceptedRecs_cons_neg m cfg p row rest hacc] at hdup ⊢
      have e := stepRow_skip m cfg p st row hv
      have ec : (stepRow m cfg p st row).committed = st.committed := by rw [e]
      have ep : (stepRow m cfg p st row).pending = st.pending := by rw [e]
      have ei : (stepRow m cfg p st row).res.imported = st.res.imported := by
        rw [e]
      have es : (stepRow m cfg p st row).res.skipped_duplicates
          = st.res.skipped_duplicates := by rw [e]
      have hdup2 : ∀ r' ∈ acceptedRecs m cfg p rest,
          ((stepRow m cfg p st row).committed.any
            (fun q => keyConflict r' q)) = true := by
        intro r' hr'
        rw [ec]
        exact hdup r' hr'
      obtain ⟨ih1, ih2, ih3, ih4⟩ := ih (stepRow m cfg p st row)
        (by rw [ep, hpend]) hdup2
      exact ⟨by rw [processRows_cons, ih1, ec],
        by rw [processRows_cons, ih2],
        by rw [processRows_cons, ih3, ei],
        by rw [processRows_cons, ih4, es]⟩
    · have hacc : (validate_row row 0 m cfg).1 = false := by
        rw [validate_row_fst_indep row 0 st.rowNum m cfg, hv]
      rw [acceptedRecs_cons_neg m cfg p row rest hacc] at hdup ⊢
      have e2 := stepRow_err m cfg p st row e hv
      have ec : (stepRow m cfg p st row).committed = st.committed := by rw [e2]
      have ep : (stepRow m cfg p st row).pending = st.pending := by rw [e2]
      have ei : (stepRow m cfg p st row).res.imported = st.res.imported := by
        rw [e2]
      have es : (stepRow m cfg p st row).res.skipped_duplicates
          = st.res.skipped_duplicates := by rw [e2]
      have hdup2 : ∀ r' ∈ acceptedRecs m cfg p rest,
          ((stepRow m cfg p st row).committed.any
            (fun q => keyConflict r' q)) = true := by
        intro r' hr'
        rw [ec]
        exact hdup r' hr'
      obtain ⟨ih1, ih2, ih3, ih4⟩ := ih (stepRow m cfg p st row)
        (by rw [ep, hpend]) hdup2
      exact ⟨by rw [processRows_cons, ih1, ec],
        by rw [processRows_cons, ih2],
        by rw [processRows_cons, ih3, ei],
        by rw [processRows_cons, ih4, es]⟩

/-- The loop state at the end of a run that passed the mandatory
column checks. -/
def runStateF (cfg : ImportConfig) (p : Str → Option Nat)
    (ws : List (List Cell)) (db : List WDRec) : StepState :=
  processRows (detect_columns ws cfg).1 cfg p (ws.drop cfg.header_row)
    { res := { warnings := (detect_columns ws cfg).2 }, committed := db,
      pending := [], fatg := false, rowNum := cfg.header_row + 1 }

lemma import_run (cfg : ImportConfig) (p : Str → Option Nat)
    (ws : List (List Cell)) (db : List WDRec)
    (hf : (detect_columns ws cfg).1.from_name ≠ none)
    (ha : (detect_columns ws cfg).1.about ≠ none) :
    (import_workday_xlsx cfg p ws db).2
      = (runStateF cfg p ws db).committed ++ (runStateF cfg p ws db).pending ∧
    (import_workday_xlsx cfg p ws db).1.imported
      = (runStateF cfg p ws db).res.imported ∧
    (import_workday_xlsx cfg p ws db).1.skipped_duplicates
      = (runStateF cfg p ws db).res.skipped_duplicates := by
  unfold import_workday_xlsx runStateF
  rw [if_neg hf, if_neg ha]
  dsimp only
  split_ifs <;> simp

lemma sqlEqCell_self (c : Cell) (h : (c == Cell.empty) = false) :
    sqlEqCell c c = true := by
  cases c <;> simp_all [sqlEqCell]

lemma keyConflict_self (r : WDRec) (h1 : (r.about == Cell.empty) = false)
    (h2 : (r.from_name == Cell.empty) = false)
    (h3 : (r.question == Cell.empty) = false) (h4 : r.date ≠ none) :
    keyConflict r r = true := by
  rcases hd : r.date with _ | d
  · exact absurd hd h4
  · simp [keyConflict, sqlEqCell_self _ h1, sqlEqCell_self _ h2,
      sqlEqCell_self _ h3, sqlEqDate, hd]

lemma acceptedRecs_from_ne (m : ColMapping) (cfg : ImportConfig)
    (p : Str → Option Nat) (rows : List (List Cell)) :
    ∀ r ∈ acceptedRecs m cfg p rows, (r.from_name == Cell.empty) = false := by
  intro r h
  simp only [acceptedRecs, acceptedRows, List.mem_map, List.mem_filter] at h
  obtain ⟨row, ⟨hrow, hacc⟩, hr⟩ := h
  rw [← hr]
  exact recOfRow_accepted_from m cfg p row 0 (by simpa using hacc)

/-! ### Claim C1: idempotency of the import -/

/-- Claim C1 as amended: when every accepted record of the sheet
carries a complete natural key (about, question and date all non
NULL), the accepted records are pairwise free of key collisions, and
none collides with the initial store, then re-running the import
against the resulting store imports nothing and counts exactly the
first run's imported rows as duplicates. -/
theorem claim_C1_amended (cfg : ImportConfig) (p : Str → Option Nat)
    (ws : List (List Cell)) (db : List WDRec)
    (hA : ∀ r ∈ acceptedRecs (detect_columns ws cfg).1 cfg p
        (ws.drop cfg.header_row),
      (r.about == Cell.empty) = false ∧ (r.question == Cell.empty) = false ∧
        r.date ≠ none)
    (hP : List.Pairwise (fun a b => keyConflict b a = false)
      (acceptedRecs (detect_columns ws cfg).1 cfg p (ws.drop cfg.header_row)))
    (hD : ∀ r ∈ acceptedRecs (detect_columns ws cfg).1 cfg p
        (ws.drop cfg.header_row),
      ∀ q ∈ db, keyConflict r q = false) :
    (import_workday_xlsx cfg p ws
        (import_workday_xlsx cfg p ws db).2).1.imported = 0 ∧
    (import_workday_xlsx cfg p ws
        (import_workday_xlsx cfg p ws db).2).1.skipped_duplicates
      = (import_workday_xlsx cfg p ws db).1.imported := by
  by_cases hf : (detect_columns ws cfg).1.from_name = none
  · have h1 := ((claim_C9_amended cfg p ws db).1 hf).1
    have h2 := ((claim_C9_amended cfg p ws
      (import_workday_xlsx cfg p ws db).2).1 hf).1
    rw [h2, h1]
    exact ⟨rfl, rfl⟩
  · by_cases ha : (detect_columns ws cfg).1.about = none
    · have h1 := ((claim_C9_amended cfg p ws db).2 hf ha).1
      have h2 := ((claim_C9_amended cfg p ws
        (import_workday_xlsx cfg p ws db).2).2 hf ha).1
      rw [h2, h1]
      exact ⟨rfl, rfl⟩
    · obtain ⟨e1s, e1i, e1d⟩ := import_run cfg p ws db hf ha
      obtain ⟨r1c, r1p, r1i, r1d⟩ := processRows_clean
        (detect_columns ws cfg).1 cfg p (ws.drop cfg.header_row)
        { res := { warnings := (detect_columns ws cfg).2 }, committed := db,
          pending := [], fatg := false, rowNum := cfg.header_row + 1 }
        (fun r h => (hA r h).1) hP
        (by
          intro r h q hq
          exact hD r h q (by simpa using hq))
      have hstore : (import_workday_xlsx cfg p ws db).2
          = db ++ acceptedRecs (detect_columns ws cfg).1 cfg p
              (ws.drop cfg.header_row) := by
        rw [e1s]
        unfold runStateF
        rw [r1c, r1p]
        simp
      obtain ⟨e2s, e2i, e2d⟩ := import_run cfg p ws
        (import_workday_xlsx cfg p ws db).2 hf ha
      obtain ⟨r2c, r2p, r2i, r2d⟩ := processRows_dup
        (detect_columns ws cfg).1 cfg p (ws.drop cfg.header_row)
        { res := { warnings := (detect_columns ws cfg).2 },
          committed := (import_workday_xlsx cfg p ws db).2,
          pending := [], fatg := false, rowNum := cfg.header_row + 1 }
        rfl
        (by
          intro r h
          rw [List.any_eq_true]
          refine ⟨r, ?_, ?_⟩
          · show r ∈ (import_workday_xlsx cfg p ws db).2
            rw [hstore]
            exact List.mem_append_right db h
          · exact keyConflict_self r (hA r h).1
              (acceptedRecs_from_ne _ cfg p _ r h)
              (hA r h).2.1 (hA r h).2.2)
      constructor
      · rw [e2i]
        unfold runStateF
        rw [r2i]
      · rw [e2d, e1i]
        unfold runStateF
        rw [r2d, r1i]

/-- A one-row sheet with a complete natural key, for the C1 witness. -/
def c1ws : List (List Cell) :=
  [[], [Cell.str "About".data, Cell.str "From".data, Cell.str "Question".data,
        Cell.str "Date".data],
   [Cell.str "John Doe".data, Cell.str "Jane Smith".data,
    Cell.str "Please provide feedback".data, Cell.dt 20251115]]

/-- Witness for the amended C1 on a concrete one-row sheet. -/
theorem claim_C1_witness :
    (import_workday_xlsx DEFAULT_CONFIG (fun _ => none) c1ws
        (import_workday_xlsx DEFAULT_CONFIG (fun _ => none) c1ws []).2).1.imported
      = 0 ∧
    (import_workday_xlsx DEFAULT_CONFIG (fun _ => none) c1ws
        (import_workday_xlsx DEFAULT_CONFIG (fun _ => none) c1ws
          []).2).1.skipped_duplicates
      = (import_workday_xlsx DEFAULT_CONFIG (fun _ => none) c1ws []).1.imported := by
  exact claim_C1_amended DEFAULT_CONFIG (fun _ => none) c1ws []
    (by decide) (by decide) (by decide)

/-- A one-row sheet whose date cell is empty: the natural key holds a
SQL NULL, which the UNIQUE constraint never matches. -/
def c1nullws : List (List Cell) :=
  [[], [Cell.str "About".data, Cell.str "From".data, Cell.str "Question".data,
        Cell.str "Date".data],
   [Cell.str "A".data, Cell.str "B".data, Cell.str "Q".data, Cell.empty]]

/-- Counterexample to C1 as stated: importing the same file twice
against the same store re-imports a row whose date is NULL (SQL treats
NULLs in a unique index as distinct), so the second run has
imported = 1, not 0. -/
theorem claim_C1_counterexample :
    (import_workday_xlsx DEFAULT_CONFIG (fun _ => none) c1nullws []).1.imported
      = 1 ∧
    ¬((import_workday_xlsx DEFAULT_CONFIG (fun _ => none) c1nullws
        (import_workday_xlsx DEFAULT_CONFIG (fun _ => none) c1nullws
          []).2).1.imported = 0 ∧
      (import_workday_xlsx DEFAULT_CONFIG (fun _ => none) c1nullws
        (import_workday_xlsx DEFAULT_CONFIG (fun _ => none) c1nullws
          []).2).1.skipped_duplicates
        = (import_workday_xlsx DEFAULT_CONFIG (fun _ => none) c1nullws
            []).1.imported) := by
  refine ⟨by decide, ?_⟩
  intro h
  exact absurd h.1 (by decide)

/-! ### Claim C2: per-row write independence -/

/-- Claim C2 as amended: row writes are only flushed into one
transaction that is committed once, at the end of the run; a store
rejection rolls back every earlier uncommitted write of the run.  In a
run with no rejection (complete keys, pairwise distinct, disjoint from
the store) every accepted record is present in the store afterwards. -/
theorem claim_C2_amended (cfg : ImportConfig) (p : Str → Option Nat)
    (ws : List (List Cell)) (db : List WDRec)
    (hf : (detect_columns ws cfg).1.from_name ≠ none)
    (ha : (detect_columns ws cfg).1.about ≠ none)
    (hA : ∀ r ∈ acceptedRecs (detect_columns ws cfg).1 cfg p
        (ws.drop cfg.header_row),
      (r.about == Cell.empty) = false)
    (hP : List.Pairwise (fun a b => keyConflict b a = false)
      (acceptedRecs (detect_columns ws cfg).1 cfg p (ws.drop cfg.header_row)))
    (hD : ∀ r ∈ acceptedRecs (detect_columns ws cfg).1 cfg p
        (ws.drop cfg.header_row),
      ∀ q ∈ db, keyConflict r q = false) :
    (import_workday_xlsx cfg p ws db).2
      = db ++ acceptedRecs (detect_columns ws cfg).1 cfg p
          (ws.drop cfg.header_row) ∧
    ∀ r ∈ acceptedRecs (detect_columns ws cfg).1 cfg p
        (ws.drop cfg.header_row),
      r ∈ (import_workday_xlsx cfg p ws db).2 := by
  obtain ⟨e1s, _, _⟩ := import_run cfg p ws db hf ha
  obtain ⟨r1c, r1p, _, _⟩ := processRows_clean
    (detect_columns ws cfg).1 cfg p (ws.drop cfg.header_row)
    { res := { warnings := (detect_columns ws cfg).2 }, committed := db,
      pending := [], fatg := false, rowNum := cfg.header_row + 1 }
    hA hP
    (by
      intro r h q hq
      exact hD r h q (by simpa using hq))
  have hstore : (import_workday_xlsx cfg p ws db).2
      = db ++ acceptedRecs (detect_columns ws cfg).1 cfg p
          (ws.drop cfg.header_row) := by
    rw [e1s]
    unfold runStateF
    rw [r1c, r1p]
    simp
  refine ⟨hstore, ?_⟩
  intro r h
  rw [hstore]
  exact List.mem_append_right db h

/-- Witness for the amended C2 on the concrete one-row sheet. -/
theorem claim_C2_witness :
    (import_workday_xlsx DEFAULT_CONFIG (fun _ => none) c1ws []).2
      = [] ++ acceptedRecs (detect_columns c1ws DEFAULT_CONFIG).1
          DEFAULT_CONFIG (fun _ => none)
          (c1ws.drop DEFAULT_CONFIG.header_row) :=
  (claim_C2_amended DEFAULT_CONFIG (fun _ => none) c1ws []
    (by decide) (by decide) (by decide) (by decide) (by decide)).1

/-- A sheet with two identical keyed rows, for the C2 counterexample. -/
def c2ws : List (List Cell) :=
  [[], [Cell.str "About".data, Cell.str "From".data, Cell.str "Question".data,
        Cell.str "Date".data],
   [Cell.str "A".data, Cell.str "B".data, Cell.str "Q".data, Cell.dt 5],
   [Cell.str "A".data, Cell.str "B".data, Cell.str "Q".data, Cell.dt 5]]

/-- Counterexample to C2 as stated: the first row is accepted and
written (imported = 1) and a later row is rejected as a duplicate
(skipped_duplicates = 1), yet the final store is empty: the rejection
rolled the whole uncommitted transaction back, so the earlier written
record is not present. -/
theorem claim_C2_counterexample :
    (import_workday_xlsx DEFAULT_CONFIG (fun _ => none) c2ws []).1.imported
      = 1 ∧
    (import_workday_xlsx DEFAULT_CONFIG (fun _ => none)
        c2ws []).1.skipped_duplicates = 1 ∧
    (import_workday_xlsx DEFAULT_CONFIG (fun _ => none) c2ws []).2 = [] := by
  refine ⟨by decide, by decide, by decide⟩

/-! ### String lemmas for the marker-block round trip -/

lemma countWhile_cons_pos (p : Char → Bool) (c : Char) (s : Str)
    (h : p c = true) : countWhile p (c :: s) = countWhile p s + 1 := by
  simp [countWhile, h]

lemma countWhile_cons_neg (p : Char → Bool) (c : Char) (s : Str)
    (h : p c = false) : countWhile p (c :: s) = 0 := by
  simp [countWhile, h]

lemma countWhile_append_stop (p : Char → Bool) (a : Str) (c : Char) (t : Str)
    (ha : ∀ x ∈ a, p x = true) (hc : p c = false) :
    countWhile p (a ++ c :: t) = a.length := by
  induction a with
  | nil => simp [countWhile_cons_neg p c t hc]
  | cons x a ih =>
    rw [List.cons_append,
      countWhile_cons_pos p x _ (ha x (List.mem_cons_self _ _)),
      ih (fun y hy => ha y (List.mem_cons_of_mem _ hy))]
    simp

lemma mem_joinComma (x : Char) (L : List Str) (h : x ∈ joinComma L) :
    x = ',' ∨ ∃ id ∈ L, x ∈ id := by
  induction L with
  | nil => simp [joinComma] at h
  | cons a t ih =>
    cases t with
    | nil =>
      simp only [joinComma] at h
      exact Or.inr ⟨a, List.mem_cons_self _ _, h⟩
    | cons b t2 =>
      simp only [joinComma] at h
      rcases List.mem_append.mp h with h1 | h1
      · exact Or.inr ⟨a, List.mem_cons_self _ _, h1⟩
      · rcases List.mem_cons.mp h1 with h2 | h2
        · exact Or.inl h2
        · rcases ih h2 with h3 | ⟨id, hid, hx⟩
          · exact Or.inl h3
          · exact Or.inr ⟨id, List.mem_cons_of_mem _ hid, hx⟩

lemma joinComma_shape (x : Str) (xs : List Str) :
    ∃ z, joinComma (x :: xs) = x ++ z := by
  cases xs with
  | nil => exact ⟨[], by simp [joinComma]⟩
  | cons y t => exact ⟨',' :: joinComma (y :: t), rfl⟩

lemma joinComma_ne_nil (x : Str) (xs : List Str) (hx : x ≠ []) :
    joinComma (x :: xs) ≠ [] := by
  obtain ⟨z, hz⟩ := joinComma_shape x xs
  rw [hz]
  cases x with
  | nil => exact absurd rfl hx
  | cons c t => simp

lemma joinComma_getLast (S : List Str) (hne : S ≠ [])
    (hq : ∀ id ∈ S, id ≠ []) :
    ∃ id ∈ S, (joinComma S).getLast? = id.getLast? := by
  induction S with
  | nil => exact absurd rfl hne
  | cons a t ih =>
    cases t with
    | nil => exact ⟨a, List.mem_cons_self _ _, rfl⟩
    | cons b t2 =>
      obtain ⟨id, hid, hlast⟩ := ih (by simp)
        (fun i h => hq i (List.mem_cons_of_mem _ h))
      refine ⟨id, List.mem_cons_of_mem _ hid, ?_⟩
      have hjoin : joinComma (a :: b :: t2) = a ++ ',' :: joinComma (b :: t2) :=
        rfl
      obtain ⟨c, w, hw⟩ := List.exists_cons_of_ne_nil
        (joinComma_ne_nil b t2 (hq b (by simp)))
      rw [hw] at hlast
      have hsome : ((c :: w).getLast?).isSome = true := by
        simp [List.getLast?_isSome]
      obtain ⟨y, hy⟩ := Option.isSome_iff_exists.mp hsome
      rw [hjoin, List.getLast?_append, hw, List.getLast?_cons_cons, hy]
      rw [hy] at hlast
      simp [Option.or, hlast]

lemma stripL_length_le_dropWhile (l : Str) :
    (stripL l).length ≤ (l.dropWhile isWS).length := by
  unfold stripL
  calc (((l.dropWhile isWS).reverse.dropWhile isWS).reverse).length
      = ((l.dropWhile isWS).reverse.dropWhile isWS).length := by
        rw [List.length_reverse]
    _ ≤ ((l.dropWhile isWS).reverse).length :=
        (List.dropWhile_sublist _).length_le
    _ = (l.dropWhile isWS).length := by rw [List.length_reverse]

lemma strip_head (c : Char) (t : Str) (hl : stripL (c :: t) = c :: t) :
    isWS c = false := by
  by_contra h
  have hws : isWS c = true := by simpa using h
  have h1 : ((c :: t).dropWhile isWS).length ≤ t.length := by
    rw [List.dropWhile_cons, if_pos (by simp [hws])]
    exact (List.dropWhile_sublist _).length_le
  have h2 := stripL_length_le_dropWhile (c :: t)
  rw [hl] at h2
  simp only [List.length_cons] at h2
  omega

lemma strip_last (l : Str) (c : Char) (hl : stripL l = l)
    (he : l.reverse.head? = some c) : isWS c = false := by
  by_contra h
  have hws : isWS c = true := by simpa using h
  by_cases hd : l.dropWhile isWS = l
  · obtain ⟨w, hw⟩ : ∃ w, l.reverse = c :: w := by
      cases hrev : l.reverse with
      | nil => rw [hrev] at he; simp at he
      | cons a w =>
        rw [hrev] at he
        simp only [List.head?_cons, Option.some.injEq] at he
        exact ⟨w, by rw [he]⟩
    have hlen : ((l.reverse.dropWhile isWS)).length ≤ w.length := by
      rw [hw, List.dropWhile_cons, if_pos (by simp [hws])]
      exact (List.dropWhile_sublist _).length_le
    have hwl : w.length + 1 = l.length := by
      have h3 := congrArg List.length hw
      simpa [List.length_reverse] using h3.symm
    have h1 : (stripL l).length < l.length := by
      unfold stripL
      rw [hd, List.length_reverse]
      omega
    rw [hl] at h1
    exact absurd h1 (lt_irrefl _)
  · have hsuf : l.dropWhile isWS <:+ l := List.dropWhile_suffix _
    have hlt : (l.dropWhile isWS).length < l.length := by
      rcases Nat.lt_or_ge (l.dropWhile isWS).length l.length with h1 | h1
      · exact h1
      · exact absurd (List.Sublist.eq_of_length hsuf.sublist
          (Nat.le_antisymm (hsuf.sublist.length_le) h1)) hd
    have h2 : (stripL l).length < l.length :=
      Nat.lt_of_le_of_lt (stripL_length_le_dropWhile l) hlt
    rw [hl] at h2
    exact absurd h2 (lt_irrefl _)

lemma stripL_self (l : Str)
    (h1 : ∀ c, l.head? = some c → isWS c = false)
    (h2 : ∀ c, l.reverse.head? = some c → isWS c = false) :
    stripL l = l := by
  have d1 : l.dropWhile isWS = l := by
    cases l with
    | nil => rfl
    | cons c t =>
      rw [List.dropWhile_cons, if_neg (by simp [h1 c rfl])]
  have d2 : l.reverse.dropWhile isWS = l.reverse := by
    cases hrev : l.reverse with
    | nil => rfl
    | cons c t =>
      rw [List.dropWhile_cons, if_neg (by simp [h2 c (by rw [hrev]; rfl)])]
  unfold stripL
  rw [d1, d2, List.reverse_reverse]

lemma stripL_joinComma (S : List Str) (hne : S ≠ [])
    (hids : ∀ id ∈ S, id ≠ [] ∧ stripL id = id) :
    stripL (joinComma S) = joinComma S := by
  apply stripL_self
  · intro c hc
    cases S with
    | nil => exact absurd rfl hne
    | cons s1 S2 =>
      obtain ⟨z, hz⟩ := joinComma_shape s1 S2
      cases hs1 : s1 with
      | nil => exact absurd hs1 (hids s1 (List.mem_cons_self _ _)).1
      | cons c1 t1 =>
        rw [hz, hs1] at hc
        simp only [List.cons_append, List.head?_cons, Option.some.injEq] at hc
        rw [← hc]
        have hstrip := (hids s1 (List.mem_cons_self _ _)).2
        rw [hs1] at hstrip
        exact strip_head c1 t1 hstrip
  · intro c hc
    obtain ⟨id, hmem, hlast⟩ := joinComma_getLast S hne
      (fun i h => (hids i h).1)
    rw [List.head?_reverse, hlast, ← List.head?_reverse] at hc
    exact strip_last id c (hids id hmem).2 hc

lemma splitComma_no_comma (a : Str) (h : ',' ∉ a) : splitComma a = [a] := by
  induction a with
  | nil => rfl
  | cons c t ih =>
    simp only [List.mem_cons, not_or] at h
    have hc : ¬(c = ',') := fun e => h.1 e.symm
    rw [splitComma, if_neg hc, ih h.2]

lemma splitComma_append (a b : Str) (h : ',' ∉ a) :
    splitComma (a ++ ',' :: b) = a :: splitComma b := by
  induction a with
  | nil => simp [splitComma]
  | cons c t ih =>
    simp only [List.mem_cons, not_or] at h
    have hc : ¬(c = ',') := fun e => h.1 e.symm
    rw [List.cons_append, splitComma, if_neg hc, ih h.2]

lemma splitComma_joinComma (S : List Str) (hne : S ≠ [])
    (h : ∀ id ∈ S, ',' ∉ id) : splitComma (joinComma S) = S := by
  induction S with
  | nil => exact absurd rfl hne
  | cons x xs ih =>
    cases xs with
    | nil => exact splitComma_no_comma x (h x (List.mem_cons_self _ _))
    | cons y t =>
      have hjoin : joinComma (x :: y :: t) = x ++ ',' :: joinComma (y :: t) :=
        rfl
      rw [hjoin, splitComma_append x _ (h x (List.mem_cons_self _ _)),
        ih (by simp) (fun i hi => h i (List.mem_cons_of_mem _ hi))]

lemma filterMap_keepTok (S : List Str)
    (h : ∀ id ∈ S, id ≠ [] ∧ stripL id = id) : S.filterMap keepTok = S := by
  induction S with
  | nil => rfl
  | cons x xs ih =>
    have hx := h x (List.mem_cons_self _ _)
    have hk : keepTok x = some x := by
      unfold keepTok
      rw [hx.2]
      simp [hx.1]
    rw [List.filterMap_cons, hk,
      ih (fun i hi => h i (List.mem_cons_of_mem _ hi))]

/-! ### Matcher step lemmas -/

lemma isPrefixCI_refl_append (l t : Str) : isPrefixCI l (l ++ t) = true := by
  induction l with
  | nil => rfl
  | cons c l ih => simp [isPrefixCI, ih]

lemma matchSeq_lit_exact (l : Str) (ps : List RItem) (t : Str) :
    matchSeq (.lit l :: ps) (l ++ t) = matchSeq ps t := by
  simp [matchSeq, isPrefixCI_refl_append, List.drop_left]

lemma matchSeq_lit_fail (l : Str) (ps : List RItem) (s : Str)
    (h : isPrefixCI l s = false) : matchSeq (.lit l :: ps) s = none := by
  simp [matchSeq, h]

lemma tryK_hit (f : Str → Option (List Str × Str)) (s : Str) (m : Nat)
    (r : List Str × Str) (h : f (s.drop m) = some r) : tryK f s m = some r := by
  cases m with
  | zero =>
    rw [List.drop_zero] at h
    simpa [tryK] using h
  | succ k => simp [tryK, h]

lemma tryGrpK_hit (f : Str → Option (List Str × Str)) (s : Str) (m : Nat)
    (r : List Str × Str) (h : f (s.drop m) = some r) :
    tryGrpK f s m = some ((s.take m) :: r.1, r.2) := by
  cases m with
  | zero =>
    rw [List.drop_zero] at h
    simp [tryGrpK, h]
  | succ k => simp [tryGrpK, h]

lemma matchSeq_ws_hit (ps : List RItem) (s : Str) (m : Nat)
    (r : List Str × Str) (hc : countWhile isWS s = m)
    (h : matchSeq ps (s.drop m) = some r) :
    matchSeq (.wsStar :: ps) s = some r := by
  simp only [matchSeq]
  rw [hc]
  exact tryK_hit _ s m r h

lemma matchSeq_grp_hit (ps : List RItem) (s : Str) (m : Nat)
    (r : List Str × Str) (hc : countWhile (fun c => !(c == '\n')) s = m)
    (h : matchSeq ps (s.drop m) = some r) :
    matchSeq (.grpNL :: ps) s = some ((s.take m) :: r.1, r.2) := by
  simp only [matchSeq]
  rw [hc]
  exact tryGrpK_hit _ s m r h

lemma reSearch_hit (pat : List RItem) (c : Char) (t : Str)
    (r : List Str × Str) (h : matchSeq pat (c :: t) = some r) :
    reSearch pat (c :: t) = some r.1 := by
  simp [reSearch, h]

lemma reSearch_cons_fail (pat : List RItem) (c : Char) (t : Str)
    (h : matchSeq pat (c :: t) = none) :
    reSearch pat (c :: t) = reSearch pat t := by
  simp [reSearch, h]

/-! ### Claim C4: the structured round trip -/

/-- The constructed round-trip text of the claim. -/
def tenetText (S I : List Str) : Str :=
  "[TENETS]\nStrengths: ".data ++ joinComma S ++ "\nImprovements: ".data
    ++ joinComma I ++ "\n[/TENETS]".data

lemma countWhile_zero_of_head (p : Char → Bool) (c : Char) (t y : Str)
    (hc : p c = false) : countWhile p ((c :: t) ++ y) = 0 := by
  rw [List.cons_append]
  exact countWhile_cons_neg _ _ _ hc

lemma tenetText_split (S I : List Str) :
    tenetText S I
      = "[TENETS]".data ++ ('\n' :: ("Strengths:".data ++ (' ' ::
          (joinComma S ++ ('\n' :: ("Improvements:".data ++ (' ' ::
            (joinComma I ++ ('\n' :: "[/TENETS]".data))))))))) := by
  unfold tenetText
  rw [show ("[TENETS]\nStrengths: ".data : Str)
      = "[TENETS]".data ++ ('\n' :: ("Strengths:".data ++ [' '])) by decide]
  rw [show ("\nImprovements: ".data : Str)
      = '\n' :: ("Improvements:".data ++ [' ']) by decide]
  rw [show ("\n[/TENETS]".data : Str) = '\n' :: "[/TENETS]".data by decide]
  simp [List.append_assoc]

lemma matchSeq_tenetText (S I : List Str) (hS : S ≠ []) (hI : I ≠ [])
    (hid : ∀ id ∈ S ++ I, id ≠ [] ∧ stripL id = id ∧ ',' ∉ id ∧ '\n' ∉ id) :
    matchSeq tenetPat (tenetText S I)
      = some ([joinComma S, joinComma I], []) := by
  obtain ⟨s1, S2, rfl⟩ : ∃ s1 S2, S = s1 :: S2 := by
    cases S with
    | nil => exact absurd rfl hS
    | cons a b => exact ⟨a, b, rfl⟩
  obtain ⟨i1, I2, rfl⟩ : ∃ i1 I2, I = i1 :: I2 := by
    cases I with
    | nil => exact absurd rfl hI
    | cons a b => exact ⟨a, b, rfl⟩
  have hids : ∀ id ∈ s1 :: S2,
      id ≠ [] ∧ stripL id = id ∧ ',' ∉ id ∧ '\n' ∉ id :=
    fun id h => hid id (List.mem_append_left _ h)
  have hidi : ∀ id ∈ i1 :: I2,
      id ≠ [] ∧ stripL id = id ∧ ',' ∉ id ∧ '\n' ∉ id :=
    fun id h => hid id (List.mem_append_right _ h)
  obtain ⟨zS, hzS⟩ := joinComma_shape s1 S2
  obtain ⟨zI, hzI⟩ := joinComma_shape i1 I2
  rcases hs1 : s1 with _ | ⟨c1, t1⟩
  · exact absurd hs1 (hids s1 (List.mem_cons_self _ _)).1
  rcases hi1 : i1 with _ | ⟨ci1, ti1⟩
  · exact absurd hi1 (hidi i1 (List.mem_cons_self _ _)).1
  have hc1 : isWS c1 = false := by
    have h := (hids s1 (List.mem_cons_self _ _)).2.1
    rw [hs1] at h
    exact strip_head c1 t1 h
  have hci1 : isWS ci1 = false := by
    have h := (hidi i1 (List.mem_cons_self _ _)).2.1
    rw [hi1] at h
    exact strip_head ci1 ti1 h
  have hnlS : ∀ x ∈ joinComma (s1 :: S2), (!(x == '\n')) = true := by
    intro x hx
    rcases mem_joinComma x _ hx with rfl | ⟨id, hm, hxm⟩
    · decide
    · have hnl := (hids id hm).2.2.2
      have : x ≠ '\n' := fun e => hnl (e ▸ hxm)
      simpa using this
  have hnlI : ∀ x ∈ joinComma (i1 :: I2), (!(x == '\n')) = true := by
    intro x hx
    rcases mem_joinComma x _ hx with rfl | ⟨id, hm, hxm⟩
    · decide
    · have hnl := (hidi id hm).2.2.2
      have : x ≠ '\n' := fun e => hnl (e ▸ hxm)
      simpa using this
  have h10 : matchSeq [RItem.wsStar, RItem.lit "[/TENETS]".data]
      ('\n' :: "[/TENETS]".data) = some ([], []) := by decide
  have h9 : matchSeq
      [RItem.grpNL, RItem.wsStar, RItem.lit "[/TENETS]".data]
      (joinComma (i1 :: I2) ++ ('\n' :: "[/TENETS]".data))
      = some ([joinComma (i1 :: I2)], []) := by
    have hcw : countWhile (fun c => !(c == '\n'))
        (joinComma (i1 :: I2) ++ ('\n' :: "[/TENETS]".data))
        = (joinComma (i1 :: I2)).length :=
      countWhile_append_stop _ _ _ _ hnlI (by decide)
    have h := matchSeq_grp_hit [RItem.wsStar, RItem.lit "[/TENETS]".data]
      (joinComma (i1 :: I2) ++ ('\n' :: "[/TENETS]".data))
      (joinComma (i1 :: I2)).length ([], []) hcw
      (by rw [List.drop_left]; exact h10)
    rw [List.take_left] at h
    simpa using h
  have h8 : matchSeq
      [RItem.wsStar, RItem.grpNL, RItem.wsStar, RItem.lit "[/TENETS]".data]
      (' ' :: (joinComma (i1 :: I2) ++ ('\n' :: "[/TENETS]".data)))
      = some ([joinComma (i1 :: I2)], []) := by
    have hz : countWhile isWS
        (joinComma (i1 :: I2) ++ ('\n' :: "[/TENETS]".data)) = 0 := by
      rw [hzI, List.append_assoc, hi1]
      exact countWhile_zero_of_head isWS ci1 _ _ hci1
    refine matchSeq_ws_hit _ _ 1 _ ?_ (by simpa using h9)
    rw [countWhile_cons_pos isWS ' ' _ (by decide), hz]
  have h7 : matchSeq
      (RItem.lit "Improvements:".data ::
        [RItem.wsStar, RItem.grpNL, RItem.wsStar, RItem.lit "[/TENETS]".data])
      ("Improvements:".data ++ (' ' ::
        (joinComma (i1 :: I2) ++ ('\n' :: "[/TENETS]".data))))
      = some ([joinComma (i1 :: I2)], []) :=
    (matchSeq_lit_exact _ _ _).trans h8
  have h6 : matchSeq
      [RItem.wsStar, RItem.lit "Improvements:".data,
        RItem.wsStar, RItem.grpNL, RItem.wsStar, RItem.lit "[/TENETS]".data]
      ('\n' :: ("Improvements:".data ++ (' ' ::
        (joinComma (i1 :: I2) ++ ('\n' :: "[/TENETS]".data)))))
      = some ([joinComma (i1 :: I2)], []) := by
    have hz : countWhile isWS ("Improvements:".data ++ (' ' ::
        (joinComma (i1 :: I2) ++ ('\n' :: "[/TENETS]".data)))) = 0 := by
      rw [show ("Improvements:".data : Str)
        = 'I' :: "mprovements:".data by decide]
      exact countWhile_zero_of_head isWS 'I' _ _ (by decide)
    refine matchSeq_ws_hit _ _ 1 _ ?_ (by simpa using h7)
    rw [countWhile_cons_pos isWS '\n' _ (by decide), hz]
  have h5 : matchSeq
      [RItem.grpNL, RItem.wsStar, RItem.lit "Improvements:".data,
        RItem.wsStar, RItem.grpNL, RItem.wsStar, RItem.lit "[/TENETS]".data]
      (joinComma (s1 :: S2) ++ ('\n' :: ("Improvements:".data ++ (' ' ::
        (joinComma (i1 :: I2) ++ ('\n' :: "[/TENETS]".data))))))
      = some ([joinComma (s1 :: S2), joinComma (i1 :: I2)], []) := by
    have hcw : countWhile (fun c => !(c == '\n'))
        (joinComma (s1 :: S2) ++ ('\n' :: ("Improvements:".data ++ (' ' ::
          (joinComma (i1 :: I2) ++ ('\n' :: "[/TENETS]".data))))))
        = (joinComma (s1 :: S2)).length :=
      countWhile_append_stop _ _ _ _ hnlS (by decide)
    have h := matchSeq_grp_hit
      [RItem.wsStar, RItem.lit "Improvements:".data,
        RItem.wsStar, RItem.grpNL, RItem.wsStar, RItem.lit "[/TENETS]".data]
      (joinComma (s1 :: S2) ++ ('\n' :: ("Improvements:".data ++ (' ' ::
        (joinComma (i1 :: I2) ++ ('\n' :: "[/TENETS]".data))))))
      (joinComma (s1 :: S2)).length ([joinComma (i1 :: I2)], []) hcw
      (by rw [List.drop_left]; exact h6)
    rw [List.take_left] at h
    simpa using h
  have h4 : matchSeq
      [RItem.wsStar, RItem.grpNL, RItem.wsStar,
        RItem.lit "Improvements:".data, RItem.wsStar, RItem.grpNL,
        RItem.wsStar, RItem.lit "[/TENETS]".data]
      (' ' :: (joinComma (s1 :: S2) ++ ('\n' ::
        ("Improvements:".data ++ (' ' ::
          (joinComma (i1 :: I2) ++ ('\n' :: "[/TENETS]".data)))))))
      = some ([joinComma (s1 :: S2), joinComma (i1 :: I2)], []) := by
    have hz : countWhile isWS
        (joinComma (s1 :: S2) ++ ('\n' :: ("Improvements:".data ++ (' ' ::
          (joinComma (i1 :: I2) ++ ('\n' :: "[/TENETS]".data)))))) = 0 := by
      rw [hzS, List.append_assoc, hs1]
      exact countWhile_zero_of_head isWS c1 _ _ hc1
    refine matchSeq_ws_hit _ _ 1 _ ?_ (by simpa using h5)
    rw [countWhile_cons_pos isWS ' ' _ (by decide), hz]
  have h3 : matchSeq
      (RItem.lit "Strengths:".data ::
        [RItem.wsStar, RItem.grpNL, RItem.wsStar,
          RItem.lit "Improvements:".data, RItem.wsStar, RItem.grpNL,
          RItem.wsStar, RItem.lit "[/TENETS]".data])
      ("Strengths:".data ++ (' ' :: (joinComma (s1 :: S2) ++ ('\n' ::
        ("Improvements:".data ++ (' ' ::
          (joinComma (i1 :: I2) ++ ('\n' :: "[/TENETS]".data))))))))
      = some ([joinComma (s1 :: S2), joinComma (i1 :: I2)], []) :=
    (matchSeq_lit_exact _ _ _).trans h4
  have h2 : matchSeq
      [RItem.wsStar, RItem.lit "Strengths:".data, RItem.wsStar, RItem.grpNL,
        RItem.wsStar, RItem.lit "Improvements:".data, RItem.wsStar,
        RItem.grpNL, RItem.wsStar, RItem.lit "[/TENETS]".data]
      ('\n' :: ("Strengths:".data ++ (' ' :: (joinComma (s1 :: S2) ++ ('\n' ::
        ("Improvements:".data ++ (' ' ::
          (joinComma (i1 :: I2) ++ ('\n' :: "[/TENETS]".data)))))))))
      = some ([joinComma (s1 :: S2), joinComma (i1 :: I2)], []) := by
    have hz : countWhile isWS ("Strengths:".data ++ (' ' ::
        (joinComma (s1 :: S2) ++ ('\n' :: ("Improvements:".data ++ (' ' ::
          (joinComma (i1 :: I2) ++ ('\n' :: "[/TENETS]".data)))))))) = 0 := by
      rw [show ("Strengths:".data : Str) = 'S' :: "trengths:".data by decide]
      exact countWhile_zero_of_head isWS 'S' _ _ (by decide)
    refine matchSeq_ws_hit _ _ 1 _ ?_ (by simpa using h3)
    rw [countWhile_cons_pos isWS '\n' _ (by decide), hz]
  rw [tenetText_split, ← hs1, ← hi1]
  exact (matchSeq_lit_exact "[TENETS]".data _ _).trans h2

lemma tenetText_cons (S I : List Str) :
    tenetText S I
      = '[' :: ("TENETS]".data ++ ('\n' :: ("Strengths:".data ++ (' ' ::
          (joinComma S ++ ('\n' :: ("Improvements:".data ++ (' ' ::
            (joinComma I ++ ('\n' :: "[/TENETS]".data)))))))))) := by
  rw [tenetText_split,
    show ("[TENETS]".data : Str) = '[' :: "TENETS]".data by decide,
    List.cons_append]

lemma reSearch_tenetText (S I : List Str) (hS : S ≠ []) (hI : I ≠ [])
    (hid : ∀ id ∈ S ++ I, id ≠ [] ∧ stripL id = id ∧ ',' ∉ id ∧ '\n' ∉ id) :
    reSearch tenetPat (tenetText S I)
      = some [joinComma S, joinComma I] := by
  have hm := matchSeq_tenetText S I hS hI hid
  rw [tenetText_cons] at hm
  rw [tenetText_cons]
  exact reSearch_hit _ _ _ _ hm

/-- Claim C4: the structured round trip.  For nonempty lists of
well-formed ids (nonempty, free of commas and newlines, carrying no
surrounding whitespace), the extractor run on the constructed marker
block text marks the record structured and recovers exactly the two id
lists, in order and without deduplication. -/
theorem claim_C4 (S I : List Str) (hS : S ≠ []) (hI : I ≠ [])
    (hid : ∀ id ∈ S ++ I, id ≠ [] ∧ stripL id = id ∧ ',' ∉ id ∧ '\n' ∉ id)
    (r : WDRec) (hfeed : r.feedback = Cell.str (tenetText S I)) :
    (parse_structured_feedback r).2 = true ∧
    (parse_structured_feedback r).1.is_structured = true ∧
    (parse_structured_feedback r).1.strengths = some S ∧
    (parse_structured_feedback r).1.improvements = some I := by
  have hsearch := reSearch_tenetText S I hS hI hid
  have hneq : tenetText S I ≠ [] := by
    rw [tenetText_cons]
    exact List.cons_ne_nil _ _
  have hidS : ∀ id ∈ S, id ≠ [] ∧ stripL id = id :=
    fun id h => ⟨(hid id (List.mem_append_left _ h)).1,
      (hid id (List.mem_append_left _ h)).2.1⟩
  have hidI : ∀ id ∈ I, id ≠ [] ∧ stripL id = id :=
    fun id h => ⟨(hid id (List.mem_append_right _ h)).1,
      (hid id (List.mem_append_right _ h)).2.1⟩
  have hcS : ∀ id ∈ S, ',' ∉ id :=
    fun id h => (hid id (List.mem_append_left _ h)).2.2.1
  have hcI : ∀ id ∈ I, ',' ∉ id :=
    fun id h => (hid id (List.mem_append_right _ h)).2.2.1
  unfold parse_structured_feedback
  rw [hfeed]
  dsimp only
  rw [if_neg hneq, hsearch]
  dsimp only
  refine ⟨rfl, rfl, ?_, ?_⟩
  · rw [show List.getD [joinComma S, joinComma I] 0 [] = joinComma S from rfl,
      stripL_joinComma S hS hidS, splitComma_joinComma S hS hcS,
      filterMap_keepTok S hidS]
  · rw [show List.getD [joinComma S, joinComma I] 1 [] = joinComma I from rfl,
      stripL_joinComma I hI hidI, splitComma_joinComma I hI hcI,
      filterMap_keepTok I hidI]

/-- Witness for C4 at concrete id lists. -/
theorem claim_C4_witness :
    (parse_structured_feedback
        { about := Cell.empty, from_name := Cell.empty, question := Cell.empty,
          feedback := Cell.str (tenetText ["t1".data, "t2".data] ["t3".data]),
          asked_by := Cell.empty, request_type := Cell.empty,
          date := none }).1.strengths = some ["t1".data, "t2".data] ∧
    (parse_structured_feedback
        { about := Cell.empty, from_name := Cell.empty, question := Cell.empty,
          feedback := Cell.str (tenetText ["t1".data, "t2".data] ["t3".data]),
          asked_by := Cell.empty, request_type := Cell.empty,
          date := none }).1.improvements = some ["t3".data] := by
  have h := claim_C4 ["t1".data, "t2".data] ["t3".data] (by decide) (by decide)
    (by decide)
    { about := Cell.empty, from_name := Cell.empty, question := Cell.empty,
      feedback := Cell.str (tenetText ["t1".data, "t2".data] ["t3".data]),
      asked_by := Cell.empty, request_type := Cell.empty, date := none } rfl
  exact ⟨h.2.2.1, h.2.2.2⟩

/-! ### Claim C5: reversed marker-block line order never matches -/

/-- A marker block with the Improvements line before the Strengths
line, as whole feedback text. -/
def tenetTextRev (S I : List Str) : Str :=
  "[TENETS]\nImprovements: ".data ++ joinComma I ++ "\nStrengths: ".data
    ++ joinComma S ++ "\n[/TENETS]".data

lemma char_toNat_ofNat (n : Nat) (h : n < 55296) :
    (Char.ofNat n).toNat = n := by
  unfold Char.ofNat
  rw [dif_pos (Or.inl h)]
  simp [Char.ofNatAux, Char.toNat, UInt32.toNat]

lemma lowerChar_brack (c : Char) (h : c ≠ '[') : lowerChar c ≠ '[' := by
  unfold lowerChar
  split_ifs with h1
  · intro he
    have h2 : (Char.ofNat (c.toNat + 32)).toNat = c.toNat + 32 :=
      char_toNat_ofNat _ (by omega)
    rw [he] at h2
    have h3 : ('[' : Char).toNat = 91 := by decide
    omega
  · exact h

lemma matchSeq_fail_head (s : Str) (h : s.head? ≠ some '[') :
    matchSeq tenetPat s = none := by
  cases s with
  | nil => decide
  | cons c t =>
    have hc : c ≠ '[' := by
      intro e
      exact h (by rw [e]; rfl)
    apply matchSeq_lit_fail
    rw [show ("[TENETS]".data : Str) = '[' :: "TENETS]".data by decide]
    simp only [isPrefixCI]
    rw [show lowerChar '[' = '[' by decide]
    rw [show (lowerChar c == '[') = false by
      simpa using lowerChar_brack c hc]
    rw [Bool.false_and]

lemma reSearch_skip_seg (seg rest : Str) (h : ∀ x ∈ seg, x ≠ '[')
    (hr : reSearch tenetPat rest = none) :
    reSearch tenetPat (seg ++ rest) = none := by
  induction seg with
  | nil => simpa using hr
  | cons c t ih =>
    rw [List.cons_append,
      reSearch_cons_fail _ _ _ (matchSeq_fail_head _ (by
        simp only [List.head?_cons, ne_eq, Option.some.injEq]
        exact h c (List.mem_cons_self _ _)))]
    exact ih (fun x hx => h x (List.mem_cons_of_mem _ hx))

lemma matchSeq_wsStar_eq (ps : List RItem) (s : Str) :
    matchSeq (.wsStar :: ps) s
      = tryK (fun t => matchSeq ps t) s (countWhile isWS s) := by
  rw [matchSeq]

lemma tryK_none_two (f : Str → Option (List Str × Str)) (s : Str)
    (h1 : f (s.drop 1) = none) (h0 : f s = none) : tryK f s 1 = none := by
  have h1t : f s.tail = none := by
    rw [← List.drop_one]
    exact h1
  simp [tryK, h1t, h0]

lemma matchSeq_rev_start (rest : Str) :
    matchSeq tenetPat ("[TENETS]".data ++ ('\n' :: ('I' :: rest))) = none := by
  have h1 := matchSeq_lit_exact "[TENETS]".data
    [RItem.wsStar, RItem.lit "Strengths:".data, RItem.wsStar, RItem.grpNL,
      RItem.wsStar, RItem.lit "Improvements:".data, RItem.wsStar, RItem.grpNL,
      RItem.wsStar, RItem.lit "[/TENETS]".data] ('\n' :: ('I' :: rest))
  have hfail1 : matchSeq
      (RItem.lit "Strengths:".data ::
        [RItem.wsStar, RItem.grpNL, RItem.wsStar,
          RItem.lit "Improvements:".data, RItem.wsStar, RItem.grpNL,
          RItem.wsStar, RItem.lit "[/TENETS]".data]) ('I' :: rest) = none := by
    apply matchSeq_lit_fail
    rw [show ("Strengths:".data : Str) = 'S' :: "trengths:".data by decide]
    simp only [isPrefixCI]
    rw [show (lowerChar 'I' == lowerChar 'S') = false by decide,
      Bool.false_and]
  have hfail0 : matchSeq
      (RItem.lit "Strengths:".data ::
        [RItem.wsStar, RItem.grpNL, RItem.wsStar,
          RItem.lit "Improvements:".data, RItem.wsStar, RItem.grpNL,
          RItem.wsStar, RItem.lit "[/TENETS]".data])
      ('\n' :: ('I' :: rest)) = none := by
    apply matchSeq_lit_fail
    rw [show ("Strengths:".data : Str) = 'S' :: "trengths:".data by decide]
    simp only [isPrefixCI]
    rw [show (lowerChar '\n' == lowerChar 'S') = false by decide,
      Bool.false_and]
  rw [show tenetPat = RItem.lit "[TENETS]".data ::
    [RItem.wsStar, RItem.lit "Strengths:".data, RItem.wsStar, RItem.grpNL,
      RItem.wsStar, RItem.lit "Improvements:".data, RItem.wsStar, RItem.grpNL,
      RItem.wsStar, RItem.lit "[/TENETS]".data] from rfl, h1]
  rw [matchSeq_wsStar_eq]
  rw [countWhile_cons_pos isWS '\n' _ (by decide),
    countWhile_cons_neg isWS 'I' _ (by decide)]
  exact tryK_none_two _ _ (by simpa using hfail1) (by simpa using hfail0)

lemma tenetTextRev_split (S I : List Str) :
    tenetTextRev S I
      = "[TENETS]".data ++ ('\n' :: ('I' :: ("mprovements: ".data ++
          (joinComma I ++ ("\nStrengths: ".data ++
            (joinComma S ++ ("\n".data ++ "[/TENETS]".data))))))) := by
  unfold tenetTextRev
  rw [show ("[TENETS]\nImprovements: ".data : Str)
      = "[TENETS]".data ++ ('\n' :: ('I' :: "mprovements: ".data)) by decide]
  rw [show ("\n[/TENETS]".data : Str) = "\n".data ++ "[/TENETS]".data
    by decide]
  simp [List.append_assoc]

lemma tenetTail_eq (S I : List Str) :
    ("TENETS]".data ++ ('\n' :: ('I' :: ("mprovements: ".data ++
        (joinComma I ++ ("\nStrengths: ".data ++
          (joinComma S ++ ("\n".data ++ "[/TENETS]".data))))))) : Str)
      = "TENETS]\nImprovements: ".data ++
          (joinComma I ++ ("\nStrengths: ".data ++
            (joinComma S ++ ("\n".data ++ "[/TENETS]".data)))) := by
  rw [show ("TENETS]\nImprovements: ".data : Str)
      = "TENETS]".data ++ ('\n' :: ('I' :: "mprovements: ".data)) by decide]
  simp [List.append_assoc]

/-- Claim C5: a feedback text whose marker block carries the
Improvements line before the Strengths line never matches the pattern;
the entry is silently treated as unstructured (no flag, no error, the
record otherwise untouched). -/
theorem claim_C5 (S I : List Str) (hid : ∀ id ∈ S ++ I, '[' ∉ id)
    (r : WDRec) (hfeed : r.feedback = Cell.str (tenetTextRev S I)) :
    (parse_structured_feedback r).1 = { r with is_structured := false } ∧
    (parse_structured_feedback r).2 = false := by
  have hnoI : ∀ x ∈ joinComma I, x ≠ '[' := by
    intro x hx
    rcases mem_joinComma x _ hx with rfl | ⟨id, hm, hxm⟩
    · decide
    · exact fun e => hid id (List.mem_append_right _ hm) (e ▸ hxm)
  have hnoS : ∀ x ∈ joinComma S, x ≠ '[' := by
    intro x hx
    rcases mem_joinComma x _ hx with rfl | ⟨id, hm, hxm⟩
    · decide
    · exact fun e => hid id (List.mem_append_left _ hm) (e ▸ hxm)
  have hsearch : reSearch tenetPat (tenetTextRev S I) = none := by
    have hfin : reSearch tenetPat "[/TENETS]".data = none := by decide
    have t4 : reSearch tenetPat ("\n".data ++ "[/TENETS]".data) = none :=
      reSearch_skip_seg _ _ (by decide) hfin
    have t3 : reSearch tenetPat
        (joinComma S ++ ("\n".data ++ "[/TENETS]".data)) = none :=
      reSearch_skip_seg _ _ hnoS t4
    have t2 : reSearch tenetPat ("\nStrengths: ".data ++
        (joinComma S ++ ("\n".data ++ "[/TENETS]".data))) = none :=
      reSearch_skip_seg _ _ (by decide) t3
    have t1 : reSearch tenetPat (joinComma I ++ ("\nStrengths: ".data ++
        (joinComma S ++ ("\n".data ++ "[/TENETS]".data)))) = none :=
      reSearch_skip_seg _ _ hnoI t2
    have t0 : reSearch tenetPat ("TENETS]\nImprovements: ".data ++
        (joinComma I ++ ("\nStrengths: ".data ++
          (joinComma S ++ ("\n".data ++ "[/TENETS]".data))))) = none :=
      reSearch_skip_seg _ _ (by decide) t1
    rw [tenetTextRev_split,
      show ("[TENETS]".data : Str) = '[' :: "TENETS]".data by decide,
      List.cons_append]
    rw [reSearch_cons_fail]
    · rw [tenetTail_eq]
      exact t0
    · rw [← List.cons_append,
        ← show ("[TENETS]".data : Str) = '[' :: "TENETS]".data by decide]
      exact matchSeq_rev_start _
  have hne : tenetTextRev S I ≠ [] := by
    rw [tenetTextRev_split,
      show ("[TENETS]".data : Str) = '[' :: "TENETS]".data by decide,
      List.cons_append]
    exact List.cons_ne_nil _ _
  unfold parse_structured_feedback
  rw [hfeed]
  dsimp only
  rw [if_neg hne, hsearch]
  exact ⟨rfl, rfl⟩

/-- Witness for C5 at concrete id lists. -/
theorem claim_C5_witness :
    (parse_structured_feedback
        { about := Cell.empty, from_name := Cell.empty, question := Cell.empty,
          feedback := Cell.str (tenetTextRev ["t1".data] ["t2".data]),
          asked_by := Cell.empty, request_type := Cell.empty,
          date := none }).1.is_structured = false := by
  have h := claim_C5 ["t1".data] ["t2".data] (by decide)
    { about := Cell.empty, from_name := Cell.empty, question := Cell.empty,
      feedback := Cell.str (tenetTextRev ["t1".data] ["t2".data]),
      asked_by := Cell.empty, request_type := Cell.empty, date := none } rfl
  rw [h.1]
